import Mathlib

/-!
# PacketGen-Go: frame construction, send loop and statistics

A shallow embedding of `main.go` (package `main` of PacketGen-Go) together with
the library routines it calls: `net.ParseMAC` of the Go standard library, the
serializers of the Ethernet, Dot1Q and Payload layers of `gopacket` (v1.1.19) and
`time.NewTicker`. The library routines are transcribed from their Go sources.

Conventions
* a Go `string` is a Lean `String`; where Go indexes the string by bytes the
  model works on `goBytes s`, the UTF-8 encoding of `s`;
* a byte slice is a `List Nat` of values below 256;
* `uint16` / `uint64` values are natural numbers reduced `% 2 ^ 16` / `% 2 ^ 64`
  where the Go operation can wrap; Go `int` values are `Int`;
* a Go `error` value is kept only as far as the program distinguishes it;
* the ticker and the sink are the environment: a run is observed after the ticker has
  delivered `n` ticks, and the sink answers each write as a function of the history;
* the two goroutines that share the `Statistics` value are interleaved one statement at
  a time by a schedule (section on the mutex).
-/

namespace PacketGen

/-! ## Go strings as byte sequences -/

/-- UTF-8 encoding of one code point (Go stores strings as UTF-8 bytes). -/
def utf8Bytes (c : Nat) : List Nat :=
  if c < 0x80 then [c]
  else if c < 0x800 then [0xC0 + c / 64, 0x80 + c % 64]
  else if c < 0x10000 then [0xE0 + c / 4096, 0x80 + c / 64 % 64, 0x80 + c % 64]
  else [0xF0 + c / 262144, 0x80 + c / 4096 % 64, 0x80 + c / 64 % 64, 0x80 + c % 64]

/-- The bytes of a Go string: `s[i]` in Go is `(goBytes s)[i]`, `len(s)` is its length. -/
def goBytes (s : String) : List Nat :=
  (s.toList.map (fun c => utf8Bytes c.toNat)).flatten

/-! ## `net.ParseMAC` (Go standard library, `net/mac.go` and `net/parse.go`) -/

/-- One hexadecimal digit, as the three branches of the loop body of `xtoi`
(`'0'..'9'`, `'a'..'f'`, `'A'..'F'`); `none` is the `break` branch. -/
def hexVal (b : Nat) : Option Nat :=
  if 48 ≤ b ∧ b ≤ 57 then some (b - 48)
  else if 97 ≤ b ∧ b ≤ 102 then some (b - 97 + 10)
  else if 65 ≤ b ∧ b ≤ 70 then some (b - 65 + 10)
  else none

/-- Loop of `xtoi`, started with accumulator `n` after `i` consumed characters: returns
`(n, i, ok)`. The constant `big` is `0xFFFFFF`. -/
def xtoiLoop : List Nat → Nat → Nat → Nat × Nat × Bool
  | [], n, i => if i = 0 then (0, i, false) else (n, i, true)
  | b :: rest, n, i =>
    match hexVal b with
    | some d =>
      let n1 := n * 16 + d
      if n1 ≥ 0xFFFFFF then (0, i, false) else xtoiLoop rest n1 (i + 1)
    | none => if i = 0 then (0, i, false) else (n, i, true)

/-- Go `xtoi(s)`: hexadecimal to integer; returns number, characters consumed, success. -/
def xtoi (s : List Nat) : Nat × Nat × Bool := xtoiLoop s 0 0

/-- Go `xtoi2(s, e)`: converts the next two hex digits of `s` into a byte; if `s` is
longer than 2 bytes then the third byte must be `e`. -/
def xtoi2 (s : List Nat) (e : Nat) : Nat × Bool :=
  if s.length > 2 ∧ s.getD 2 0 ≠ e then (0, false)
  else
    let r := xtoi (s.take 2)
    (r.1 % 256, r.2.2 && r.2.1 == 2)

/-- The colon / hyphen loop of `ParseMAC`: `for x, i := 0, 0; i < n; i++`, with
`k = n - i` iterations left. -/
def parseOctets (s : List Nat) (sep : Nat) : Nat → Nat → Option (List Nat)
  | 0, _ => some []
  | k + 1, x =>
    match xtoi2 (s.drop x) sep with
    | (b, true) => (parseOctets s sep k (x + 3)).map (fun hw => b :: hw)
    | (_, false) => none

/-- The dotted loop of `ParseMAC`: `for x, i := 0, 0; i < n; i += 2`, with `k`
iterations left. -/
def parseGroups (s : List Nat) (sep : Nat) : Nat → Nat → Option (List Nat)
  | 0, _ => some []
  | k + 1, x =>
    match xtoi2 ((s.drop x).take 2) 0 with
    | (b0, true) =>
      match xtoi2 (s.drop (x + 2)) sep with
      | (b1, true) => (parseGroups s sep k (x + 5)).map (fun hw => b0 :: b1 :: hw)
      | (_, false) => none
    | (_, false) => none

/-- Go `net.ParseMAC(s)`: `some hw` for `(hw, nil)`, `none` for the
`invalid MAC address` error. Accepts 6-, 8- and 20-octet addresses. -/
def ParseMAC (str : String) : Option (List Nat) :=
  let s := goBytes str
  if s.length < 14 then none
  else if s.getD 2 0 = 58 ∨ s.getD 2 0 = 45 then
    if (s.length + 1) % 3 ≠ 0 then none
    else
      let n := (s.length + 1) / 3
      if n ≠ 6 ∧ n ≠ 8 ∧ n ≠ 20 then none
      else parseOctets s (s.getD 2 0) n 0
  else if s.getD 4 0 = 46 then
    if (s.length + 1) % 5 ≠ 0 then none
    else
      let n := 2 * (s.length + 1) / 5
      if n ≠ 6 ∧ n ≠ 8 ∧ n ≠ 20 then none
      else parseGroups s (s.getD 4 0) (n / 2) 0
  else none

/-! ## `gopacket` serialization (`layers/ethernet.go`, `layers/dot1q.go`, `base.go`) -/

/-- The errors the layer serializers can return. -/
inductive SerializeError where
  /-- `invalid dst MAC: ...` -/
  | invalidDstMAC
  /-- `invalid src MAC: ...` -/
  | invalidSrcMAC
  /-- `ethernet type ... not compatible with length value ...` -/
  | typeLengthMismatch
  /-- `invalid ethernet length ...` -/
  | invalidEthernetLength
  /-- `vlan identifier ... is too high` -/
  | vlanTooHigh
  deriving DecidableEq, Repr

/-- Big-endian encoding of a 16-bit value (`binary.BigEndian.PutUint16`). -/
def putUint16 (v : Nat) : List Nat := [v / 256 % 256, v % 256]

/-- The fields of `layers.Ethernet` that serialization reads. -/
structure Ethernet where
  SrcMAC : List Nat
  DstMAC : List Nat
  EthernetType : Nat
  Length : Nat := 0
  deriving DecidableEq, Repr

/-- The fields of `layers.Dot1Q` that serialization reads. -/
structure Dot1Q where
  Priority : Nat
  DropEligible : Bool
  VLANIdentifier : Nat
  Type_ : Nat
  deriving DecidableEq, Repr

/-- `layers.EthernetTypeLLC`. -/
def EthernetTypeLLC : Nat := 0

/-- `layers.EthernetTypeDot1Q`. -/
def EthernetTypeDot1Q : Nat := 0x8100

/-- `gopacket.Payload.SerializeTo`: prepends the payload bytes to the buffer. -/
def Payload.SerializeTo (p : List Nat) (b : List Nat) : Except SerializeError (List Nat) :=
  .ok (p ++ b)

/-- `layers.Dot1Q.SerializeTo`: prepends the 4-byte tag to the buffer `b`. -/
def Dot1Q.SerializeTo (d : Dot1Q) (b : List Nat) : Except SerializeError (List Nat) :=
  if d.VLANIdentifier > 0xFFF then .error .vlanTooHigh
  else
    let firstBytes := (d.Priority * 8192 % 65536) ||| d.VLANIdentifier
    let firstBytes := if d.DropEligible then firstBytes ||| 0x1000 else firstBytes
    .ok (putUint16 firstBytes ++ putUint16 d.Type_ ++ b)

/-- `layers.Ethernet.SerializeTo` with `opts.FixLengths = true`: prepends the 14-byte
header to the buffer `b` (the bytes already serialized) and pads the result with zero
bytes to 60 bytes. -/
def Ethernet.SerializeTo (eth : Ethernet) (b : List Nat) : Except SerializeError (List Nat) :=
  if eth.DstMAC.length ≠ 6 then .error .invalidDstMAC
  else if eth.SrcMAC.length ≠ 6 then .error .invalidSrcMAC
  else
    let payload := b
    let hdr := eth.DstMAC ++ eth.SrcMAC
    if eth.Length ≠ 0 ∨ eth.EthernetType = EthernetTypeLLC then
      let length := payload.length % 65536
      if eth.EthernetType ≠ EthernetTypeLLC then .error .typeLengthMismatch
      else if length > 0x0600 then .error .invalidEthernetLength
      else
        let out := hdr ++ putUint16 length ++ b
        .ok (out ++ List.replicate (60 - out.length) 0)
    else
      let out := hdr ++ putUint16 eth.EthernetType ++ b
      .ok (out ++ List.replicate (60 - out.length) 0)

/-! ## `main.go`: configuration and `createPacket` -/

/-- The fields of `PacketConfig` that `createPacket` and `generateTraffic` read.
`EtherType` is a `uint16`, the other numbers are Go `int`s, `VLAN` is a `*int`. -/
structure PacketConfig where
  SrcMAC : String
  DstMAC : String
  EtherType : Nat
  PayloadSize : Int
  Rate : Int
  Count : Int
  Continuous : Bool
  TrafficMode : String
  VLAN : Option Int
  deriving DecidableEq, Repr

/-- The `error` values `createPacket` returns. -/
inductive CreateError where
  /-- `fmt.Errorf("invalid source MAC: %v", err)` -/
  | invalidSourceMAC
  /-- `fmt.Errorf("invalid destination MAC: %v", err)` -/
  | invalidDestinationMAC
  /-- the error of `gopacket.SerializeLayers`, returned as it is -/
  | serialize (e : SerializeError)
  deriving DecidableEq, Repr

/-- Run-time panics of the Go code of this program. -/
inductive Panic where
  /-- `make([]byte, n)` with `n` negative or above the allocation limit
  (`makeslice: len out of range`) -/
  | makeslice
  /-- integer division by zero -/
  | divideByZero
  /-- `time.NewTicker` with a non-positive interval -/
  | nonPositiveInterval
  /-- slice bounds out of range -/
  | sliceBounds
  deriving DecidableEq, Repr

/-- What a call of `createPacket` does: return `(bytes, nil)`, return `(nil, err)`,
or panic. -/
inductive PacketResult where
  | packet (bytes : List Nat)
  | error (e : CreateError)
  | panic (p : Panic)
  deriving DecidableEq, Repr

/-- The allocation limit of the Go runtime (`maxAlloc` of `runtime/malloc.go`): `2 ^ 48`
bytes on 64-bit Linux. `make([]byte, n)` panics when `n` is negative or above it. -/
def maxAlloc : Int := 281474976710656

/-- The function `createPacket` of `main.go`. `make([]byte, config.PayloadSize)` panics
when the size is negative or above `maxAlloc`; between 0 and `maxAlloc` the allocation is
taken to succeed (running out of memory there is a fatal error of the runtime that depends
on the machine, and is not modelled). `gopacket.SerializeLayers` clears the buffer and
serializes the layers last to first, each one prepending to the bytes already there. -/
def createPacket (config : PacketConfig) : PacketResult :=
  match ParseMAC config.SrcMAC with
  | none => .error .invalidSourceMAC
  | some srcMAC =>
    match ParseMAC config.DstMAC with
    | none => .error .invalidDestinationMAC
    | some dstMAC =>
      let eth : Ethernet :=
        { SrcMAC := srcMAC, DstMAC := dstMAC, EthernetType := config.EtherType % 65536 }
      if config.PayloadSize < 0 ∨ maxAlloc < config.PayloadSize then .panic .makeslice
      else
        let payloadData := List.replicate config.PayloadSize.toNat 0
        match config.VLAN with
        | some vlan =>
          let dot1q : Dot1Q :=
            { Priority := 0, DropEligible := false,
              VLANIdentifier := (vlan % 65536).toNat, Type_ := eth.EthernetType }
          let eth := { eth with EthernetType := EthernetTypeDot1Q }
          match (Payload.SerializeTo payloadData [] >>= Dot1Q.SerializeTo dot1q
                  >>= Ethernet.SerializeTo eth) with
          | .error e => .error (.serialize e)
          | .ok bytes => .packet bytes
        | none =>
          match (Payload.SerializeTo payloadData [] >>= Ethernet.SerializeTo eth) with
          | .error e => .error (.serialize e)
          | .ok bytes => .packet bytes

/-! ## `main.go`: `Statistics` -/

/-- The counters of `Statistics` (three `uint64`). `StartTime` is left out: wall-clock time
is outside this model. The `mutex` is not a field here; the locking of `update` and
`display` is modelled with their statements in the section on the mutex. -/
structure Statistics where
  PacketsSent : Nat
  BytesSent : Nat
  Errors : Nat
  deriving DecidableEq, Repr

/-- A Go `error` value: `none` is `nil`, `some msg` an error with message `msg`. -/
abbrev GoError := Option String

/-- The method `Statistics.update(bytes, err)`; the additions are `uint64` additions. -/
def Statistics.update (s : Statistics) (bytes : Nat) (err : GoError) : Statistics :=
  if err ≠ none then
    { s with Errors := (s.Errors + 1) % 2 ^ 64 }
  else
    { s with PacketsSent := (s.PacketsSent + 1) % 2 ^ 64,
             BytesSent := (s.BytesSent + bytes) % 2 ^ 64 }

/-- A fresh `Statistics` value: all counters 0. -/
def Statistics.zero : Statistics := { PacketsSent := 0, BytesSent := 0, Errors := 0 }

/-- One call of `update`, as its two arguments. -/
structure UpdateCall where
  bytes : Nat
  err : GoError
  deriving DecidableEq, Repr

/-- A sequence of `update` calls, applied in order. -/
def Statistics.updates (s : Statistics) (calls : List UpdateCall) : Statistics :=
  calls.foldl (fun st c => st.update c.bytes c.err) s

/-! ## `main.go`: `generateTraffic` -/

/-- The calls the send loop makes on its collaborators, in the order it makes them. -/
inductive Event where
  /-- `handle.WritePacketData(frame)` returned `err` -/
  | write (frame : List Nat) (err : GoError)
  /-- `stats.update(bytes, err)` -/
  | update (bytes : Nat) (err : GoError)
  deriving DecidableEq, Repr

/-- The transport sink: the result of `handle.WritePacketData(frame)` given everything
the loop has done so far. Every deterministic behaviour of the sink is such a function. -/
abbrev Sink := List Event → List Nat → GoError

/-- The random source: `rnd t i` is the byte that the `rand.Read` call of tick `t`
stores at offset `i` of its argument (reduced `% 256`). -/
abbrev RandSource := Nat → Nat → Nat

/-- Where the `for range ticker.C` loop stands. -/
inductive Status where
  /-- waiting for the next tick -/
  | running
  /-- left the loop through `break` -/
  | stopped
  /-- a run-time panic -/
  | panicked (p : Panic)
  deriving DecidableEq, Repr

/-- The variables of `generateTraffic` while the loop runs (`packet`, `err`, `count`) and
the counters behind the `stats` pointer, with two ghost fields: `trace`, the calls made
so far, and `ticks`, the number of ticks for which the body has run. `count` is
incremented only up to `config.Count`, so it is an unbounded integer here. -/
structure LoopState where
  packet : List Nat
  err : GoError
  count : Int
  stats : Statistics
  trace : List Event
  ticks : Nat
  status : Status
  deriving DecidableEq, Repr

/-- The statements after the `switch`: `stats.update(uint64(len(packet)), err)` and the
bounded-count check. -/
def afterSwitch (config : PacketConfig) (s : LoopState) : LoopState :=
  let s1 := { s with stats := s.stats.update s.packet.length s.err,
                     trace := s.trace ++ [Event.update s.packet.length s.err] }
  if !config.Continuous then
    let s2 := { s1 with count := s1.count + 1 }
    if s2.count ≥ config.Count then { s2 with status := Status.stopped } else s2
  else s1

/-- The loop `for i := 0; i < 10; i++` of the burst case, with `k` iterations left. -/
def burstLoop (sink : Sink) : Nat → LoopState → LoopState
  | 0, s => s
  | k + 1, s =>
    let err := sink s.trace s.packet
    let s1 := { s with err := err, trace := s.trace ++ [Event.write s.packet err] }
    let s2 := { s1 with stats := s1.stats.update s1.packet.length s1.err,
                        trace := s1.trace ++ [Event.update s1.packet.length s1.err] }
    burstLoop sink k s2

/-- The body of the loop for one tick of the ticker. -/
def tick (sink : Sink) (rnd : RandSource) (config : PacketConfig) (s0 : LoopState) :
    LoopState :=
  let s := { s0 with ticks := s0.ticks + 1 }
  if config.TrafficMode = "sequential" then
    let err := sink s.trace s.packet
    afterSwitch config { s with err := err, trace := s.trace ++ [Event.write s.packet err] }
  else if config.TrafficMode = "random" then
    if s.packet.length < 14 then { s with status := Status.panicked Panic.sliceBounds }
    else
      let randPacket := s.packet.take 14 ++
        (List.range (s.packet.length - 14)).map (fun i => rnd s0.ticks i % 256)
      let err := sink s.trace randPacket
      afterSwitch config { s with err := err, trace := s.trace ++ [Event.write randPacket err] }
  else if config.TrafficMode = "burst" then
    burstLoop sink 10 s
  else
    afterSwitch config s

/-- One tick delivered by the ticker: the body runs if the loop is still waiting. -/
def step (sink : Sink) (rnd : RandSource) (config : PacketConfig) (s : LoopState) :
    LoopState :=
  match s.status with
  | Status.running => tick sink rnd config s
  | _ => s

/-- The loop after the ticker has delivered `n` ticks. -/
def runLoop (sink : Sink) (rnd : RandSource) (config : PacketConfig) (s : LoopState) :
    Nat → LoopState
  | 0 => s
  | n + 1 => step sink rnd config (runLoop sink rnd config s n)

/-- `time.NewTicker(time.Second / time.Duration(rate))`: the period in nanoseconds, or
the panic of the division or of `NewTicker`. -/
def newTicker (rate : Int) : Except Panic Int :=
  if rate = 0 then .error Panic.divideByZero
  else
    let d := Int.tdiv 1000000000 rate
    if d ≤ 0 then .error Panic.nonPositiveInterval else .ok d

/-- What a call of `generateTraffic` has done once the ticker has delivered `n` ticks. -/
inductive TrafficResult where
  /-- `log.Fatal(err)` after `createPacket` failed -/
  | fatal (e : CreateError)
  /-- a panic before the loop -/
  | panic (p : Panic)
  /-- the state of the loop -/
  | loop (s : LoopState)
  deriving DecidableEq, Repr

/-- The state in which `generateTraffic` enters its loop. -/
def initialState (packet : List Nat) (stats : Statistics) : LoopState :=
  { packet := packet, err := none, count := 0, stats := stats, trace := [], ticks := 0,
    status := Status.running }

/-- The function `generateTraffic` of `main.go`, observed after `n` ticks. -/
def generateTraffic (sink : Sink) (rnd : RandSource) (config : PacketConfig)
    (stats : Statistics) (n : Nat) : TrafficResult :=
  match createPacket config with
  | .error e => .fatal e
  | .panic p => .panic p
  | .packet packet =>
    match newTicker config.Rate with
    | .error p => .panic p
    | .ok _ => .loop (runLoop sink rnd config (initialState packet stats) n)

/-- The frames handed to the sink, oldest first. -/
def framesWritten : List Event → List (List Nat)
  | [] => []
  | Event.write f _ :: es => f :: framesWritten es
  | Event.update _ _ :: es => framesWritten es

/-- The results of the sink writes, oldest first. -/
def writeResults : List Event → List GoError
  | [] => []
  | Event.write _ e :: es => e :: writeResults es
  | Event.update _ _ :: es => writeResults es

/-- The `update` calls made, oldest first. -/
def updateCalls : List Event → List UpdateCall
  | [] => []
  | Event.write _ _ :: es => updateCalls es
  | Event.update b e :: es => { bytes := b, err := e } :: updateCalls es

/-- Number of sink writes that returned no error. -/
def okWrites (t : List Event) : Nat := (writeResults t).countP (fun e => e == none)

/-- Number of sink writes that returned an error. -/
def failedWrites (t : List Event) : Nat := (writeResults t).countP (fun e => e != none)

/-- The configuration of the example scenario of the specification. -/
def exampleConfig : PacketConfig :=
  { SrcMAC := "aa:bb:cc:dd:ee:01", DstMAC := "aa:bb:cc:dd:ee:02", EtherType := 0x0800,
    PayloadSize := 46, Rate := 1000, Count := 5, Continuous := false,
    TrafficMode := "sequential", VLAN := none }

/-- A sink whose writes all succeed. -/
def okSink : Sink := fun _ _ => none

/-- A sink whose writes all fail. -/
def failingSink : Sink := fun _ _ => some "send: Network is down"

/-! ## Statements of the specification that are refuted below, and the inputs used -/

/-- The example configuration with a malformed source address. -/
def badSrcConfig : PacketConfig := { exampleConfig with SrcMAC := "not-a-mac" }

/-- The source address of the example configuration. -/
def exampleSrc : List Nat := [0xaa, 0xbb, 0xcc, 0xdd, 0xee, 0x01]

/-- The destination address of the example configuration. -/
def exampleDst : List Nat := [0xaa, 0xbb, 0xcc, 0xdd, 0xee, 0x02]

/-- Number of calls of a sequence made with a nil error. -/
def okCalls (calls : List UpdateCall) : Nat := calls.countP (fun c => c.err == none)

/-- Number of calls of a sequence made with a non-nil error. -/
def failedCalls (calls : List UpdateCall) : Nat := calls.countP (fun c => c.err != none)

/-- Sum of the byte arguments of the calls made with a nil error. -/
def okBytes : List UpdateCall → Nat
  | [] => 0
  | c :: cs => (if c.err = none then c.bytes else 0) + okBytes cs

/-- The counters read as natural numbers after a sequence of calls on a fresh value in
which every successful call carries `b` bytes: the counts of the calls and `N * b`. -/
def updatesClaim (b : Nat) (calls : List UpdateCall) : Prop :=
  (∀ c ∈ calls, c.err = none → c.bytes = b) →
    (Statistics.zero.updates calls).PacketsSent = okCalls calls ∧
    (Statistics.zero.updates calls).BytesSent = okCalls calls * b ∧
    (Statistics.zero.updates calls).Errors = failedCalls calls

/-- All three counters are `uint64` values. -/
def Statistics.inRange (s : Statistics) : Prop :=
  s.PacketsSent < 2 ^ 64 ∧ s.BytesSent < 2 ^ 64 ∧ s.Errors < 2 ^ 64

/-- The frame handed to the sink by a tick of sequential or random mode: the built frame,
or in random mode its first 14 bytes followed by the bytes of the random source. -/
def frameOfTick (rnd : RandSource) (config : PacketConfig) (s : LoopState) : List Nat :=
  if config.TrafficMode = "random" then
    s.packet.take 14 ++ (List.range (s.packet.length - 14)).map (fun i => rnd s.ticks i % 256)
  else s.packet

/-- A bounded run performs exactly `Count` ticks and writes and then stops, for one
configuration. -/
def boundedRunClaim (config : PacketConfig) : Prop :=
  config.Continuous = false → 1 ≤ config.Count → 0 < config.Rate →
  (config.TrafficMode = "sequential" ∨ config.TrafficMode = "random") →
  ∀ (sink : Sink) (rnd : RandSource) (stats : Statistics) (n : Nat), config.Count ≤ n →
    ∃ s, generateTraffic sink rnd config stats n = .loop s ∧ s.status = Status.stopped ∧
      (s.ticks : Int) = config.Count ∧ ((framesWritten s.trace).length : Int) = config.Count

/-- The example configuration with a rate of two thousand million packets per second. -/
def fastConfig : PacketConfig := { exampleConfig with Rate := 2000000000 }

/-- The events of a sequence of writes, each followed at once by the update that carries
its result and `len` bytes. -/
def tickEvents (len : Nat) : List (List Nat × GoError) → List Event
  | [] => []
  | w :: ws => Event.write w.1 w.2 :: Event.update len w.2 :: tickEvents len ws

/-- The update calls that follow a sequence of writes. -/
def callsOf (len : Nat) (ws : List (List Nat × GoError)) : List UpdateCall :=
  ws.map (fun w => { bytes := len, err := w.2 })

/-- The history of a loop on the built frame `p` that started with the counters `stats0`
is a sequence of writes through `sink`, each followed by its update, and the counters are
those updates applied to `stats0`. -/
def Accounted (sink : Sink) (p : List Nat) (stats0 : Statistics) (s : LoopState) : Prop :=
  s.packet = p ∧
  ∃ ws : List (List Nat × GoError),
    s.trace = tickEvents p.length ws ∧
    s.stats = stats0.updates (callsOf p.length ws) ∧
    ∀ w ∈ ws, ∃ t, w.2 = sink t w.1

/-- The counters read as natural numbers at a tick boundary of a run that started from
zeroed counters: the numbers of successful and failed writes, and `PacketsSent` times the
length of the built frame. -/
def accountingClaim (sink : Sink) (rnd : RandSource) (config : PacketConfig) (n : Nat) :
    Prop :=
  (config.TrafficMode = "sequential" ∨ config.TrafficMode = "random" ∨
    config.TrafficMode = "burst") →
  ∀ p s, createPacket config = .packet p →
    generateTraffic sink rnd config Statistics.zero n = .loop s →
    s.stats.PacketsSent = okWrites s.trace ∧ s.stats.Errors = failedWrites s.trace ∧
    s.stats.BytesSent = s.stats.PacketsSent * p.length

/-- A tick of sequential or random mode whose write fails: one write, `Errors` one more,
the other counters and the control flow as after a successful write. -/
def failedTickClaim (sink : Sink) (rnd : RandSource) (config : PacketConfig)
    (s : LoopState) : Prop :=
  (config.TrafficMode = "sequential" ∨ config.TrafficMode = "random") →
  s.status = Status.running → 14 ≤ s.packet.length →
  sink s.trace (frameOfTick rnd config s) ≠ none →
    (framesWritten (tick sink rnd config s).trace).length
      = (framesWritten s.trace).length + 1 ∧
    (tick sink rnd config s).stats.Errors = s.stats.Errors + 1 ∧
    (tick sink rnd config s).stats.PacketsSent = s.stats.PacketsSent ∧
    (tick sink rnd config s).stats.BytesSent = s.stats.BytesSent ∧
    (tick sink rnd config s).status = (tick okSink rnd config s).status ∧
    (tick sink rnd config s).count = (tick okSink rnd config s).count

/-- The example configuration run without a bound (`count` 0). -/
def continuousConfig : PacketConfig := { exampleConfig with Count := 0, Continuous := true }

/-- The example configuration in random mode. -/
def randomConfig : PacketConfig := { exampleConfig with TrafficMode := "random" }

/-- The example configuration in burst mode. -/
def burstConfig : PacketConfig := { exampleConfig with TrafficMode := "burst" }

/-- The frame built from the example configuration. -/
def examplePacket : List Nat := exampleDst ++ exampleSrc ++ [8, 0] ++ List.replicate 46 0

/-- A sink whose writes fail on every second call. -/
def flakySink : Sink := fun t _ => if t.length % 4 = 0 then none else some "send failed"

/-- A loop about to start on the example frame with `Errors` at the largest `uint64`. -/
def saturatedState : LoopState :=
  initialState examplePacket { PacketsSent := 0, BytesSent := 0, Errors := 2 ^ 64 - 1 }

/-- Two ticks of the example configuration in burst mode with the sink that fails on
every second call. -/
def burstRun : LoopState :=
  runLoop flakySink (fun _ _ => 0) burstConfig (initialState examplePacket Statistics.zero) 2

/-- The unbounded example run with a sink that never fails, after `2 ^ 64` ticks. -/
def longRun : LoopState :=
  runLoop okSink (fun _ _ => 0) continuousConfig
    (initialState examplePacket Statistics.zero) (2 ^ 64)

/-- The calls a run has made on the sink and on the statistics: none when the program
left before the loop. -/
def TrafficResult.events : TrafficResult → List Event
  | .loop s => s.trace
  | _ => []

/-- A configuration with a non-positive rate is turned down without evaluating the
division and without constructing the ticker, for one configuration: the run ends in
neither of the two panics and makes no call. -/
def rateRejectedClaim (config : PacketConfig) : Prop :=
  config.Rate ≤ 0 →
  ∀ (sink : Sink) (rnd : RandSource) (stats : Statistics) (n : Nat),
    generateTraffic sink rnd config stats n ≠ .panic Panic.divideByZero ∧
    generateTraffic sink rnd config stats n ≠ .panic Panic.nonPositiveInterval ∧
    (generateTraffic sink rnd config stats n).events = []

/-- The example configuration with rate 0. -/
def zeroRateConfig : PacketConfig := { exampleConfig with Rate := 0 }

/-- The example configuration with rate -4. -/
def negativeRateConfig : PacketConfig := { exampleConfig with Rate := -4 }

/-- The example configuration with mode `flood`, which is none of the three modes. -/
def floodConfig : PacketConfig := { exampleConfig with TrafficMode := "flood" }

/-- The mode string is none of the three cases of the `switch`. -/
def otherMode (config : PacketConfig) : Prop :=
  config.TrafficMode ≠ "sequential" ∧ config.TrafficMode ≠ "random" ∧
    config.TrafficMode ≠ "burst"

/-- The example configuration in random mode with VLAN identifier 100 and no payload. -/
def emptyRandomConfig : PacketConfig :=
  { exampleConfig with TrafficMode := "random", PayloadSize := 0, VLAN := some 100 }

/-- Every counter after an update is at least what it was before, for one state and one
call on `uint64` values. -/
def monotoneClaim (s : Statistics) (bytes : Nat) (err : GoError) : Prop :=
  s.inRange → bytes < 2 ^ 64 →
    s.PacketsSent ≤ (s.update bytes err).PacketsSent ∧
    s.BytesSent ≤ (s.update bytes err).BytesSent ∧
    s.Errors ≤ (s.update bytes err).Errors

/-- A tick in a mode that is none of the three: no write, and the counters read as natural
numbers show one successful update of the length of the built frame. -/
def otherTickClaim (sink : Sink) (rnd : RandSource) (config : PacketConfig)
    (s : LoopState) : Prop :=
  otherMode config → s.status = Status.running → s.err = none →
    framesWritten (tick sink rnd config s).trace = framesWritten s.trace ∧
    (tick sink rnd config s).stats.PacketsSent = s.stats.PacketsSent + 1 ∧
    (tick sink rnd config s).stats.BytesSent = s.stats.BytesSent + s.packet.length ∧
    (tick sink rnd config s).stats.Errors = s.stats.Errors

/-- A loop about to start on the example frame with `PacketsSent` at the largest
`uint64`. -/
def saturatedPackets : LoopState :=
  initialState examplePacket { PacketsSent := 2 ^ 64 - 1, BytesSent := 0, Errors := 0 }

/-- The example configuration in random mode with VLAN identifier 100. -/
def vlanRandomConfig : PacketConfig :=
  { exampleConfig with TrafficMode := "random", VLAN := some 100 }

/-- The frame built from the example configuration with VLAN identifier 100. -/
def vlanPacket : List Nat :=
  exampleDst ++ exampleSrc ++ [0x81, 0x00, 0, 100, 8, 0] ++ List.replicate 46 0

/-! ## `main.go`: the mutex of `Statistics`

The methods `update` and `display` as the sequences of statements that touch the mutex or
a counter, and two goroutines that run such sequences on the same `Statistics` value, one
statement at a time, in the order a schedule gives. -/

/-- A statement of `update` or `display` that touches the mutex or a counter. -/
inductive Op where
  /-- `s.mutex.Lock()` -/
  | lock
  /-- `s.mutex.Unlock()`, deferred to the return of `update` -/
  | unlock
  /-- `s.Errors++` -/
  | incErrors
  /-- `s.PacketsSent++` -/
  | incPacketsSent
  /-- `s.BytesSent += bytes` -/
  | addBytesSent (bytes : Nat)
  /-- a read of `s.PacketsSent` -/
  | readPacketsSent
  /-- a read of `s.BytesSent` -/
  | readBytesSent
  /-- a read of `s.Errors` -/
  | readErrors
  deriving DecidableEq, Repr

/-- The statements of `update(bytes, err)` in the order they run. -/
def updateOps (bytes : Nat) (err : GoError) : List Op :=
  if err ≠ none then [Op.lock, Op.incErrors, Op.unlock]
  else [Op.lock, Op.incPacketsSent, Op.addBytesSent bytes, Op.unlock]

/-- The counter reads of `display()` in the order they run: `pps` reads `PacketsSent`,
`bps` reads `BytesSent`, the arguments of `Printf` read `PacketsSent` and `Errors`. The
method takes no lock. -/
def displayOps : List Op :=
  [Op.readPacketsSent, Op.readBytesSent, Op.readPacketsSent, Op.readErrors]

/-- The effect of a statement on the counters. -/
def Op.apply (op : Op) (s : Statistics) : Statistics :=
  match op with
  | .incErrors => { s with Errors := (s.Errors + 1) % 2 ^ 64 }
  | .incPacketsSent => { s with PacketsSent := (s.PacketsSent + 1) % 2 ^ 64 }
  | .addBytesSent bytes => { s with BytesSent := (s.BytesSent + bytes) % 2 ^ 64 }
  | _ => s

/-- The value a read returns. -/
def Op.read (op : Op) (s : Statistics) : Option Nat :=
  match op with
  | .readPacketsSent => some s.PacketsSent
  | .readBytesSent => some s.BytesSent
  | .readErrors => some s.Errors
  | _ => none

/-- The statements run one after the other by a single goroutine. -/
def execSeq (ops : List Op) (s : Statistics) : Statistics :=
  ops.foldl (fun st op => op.apply st) s

/-- Every statement of the sequence that touches a counter runs while the sequence holds
the mutex; `held` tells whether it holds it at the start. -/
def lockedThroughout : Bool → List Op → Bool
  | _, [] => true
  | _, Op.lock :: ops => lockedThroughout true ops
  | _, Op.unlock :: ops => lockedThroughout false ops
  | held, _ :: ops => held && lockedThroughout held ops

/-- A goroutine: the statements it still has to run and the values its reads returned. -/
structure Goroutine where
  ops : List Op
  seen : List Nat
  deriving DecidableEq, Repr

/-- The shared `Statistics` value, the holder of its mutex (`false` the updater, `true` the
reporter) and the two goroutines. -/
structure World where
  stats : Statistics
  owner : Option Bool
  updater : Goroutine
  reporter : Goroutine
  deriving DecidableEq, Repr

/-- One statement of a goroutine on the shared state: `Lock` waits while the mutex is
held, `Unlock` releases it, the other statements act on the counters. `none` when the
goroutine cannot move. -/
def Goroutine.step (who : Bool) (g : Goroutine) (stats : Statistics) (owner : Option Bool) :
    Option (Goroutine × Statistics × Option Bool) :=
  match g.ops with
  | [] => none
  | Op.lock :: rest =>
    if owner = none then some ({ g with ops := rest }, stats, some who) else none
  | Op.unlock :: rest => some ({ g with ops := rest }, stats, none)
  | op :: rest =>
    some ({ ops := rest, seen := g.seen ++ (op.read stats).toList }, op.apply stats, owner)

/-- The goroutine `who` is scheduled for one statement. -/
def World.step (w : World) (who : Bool) : World :=
  if who then
    match w.reporter.step true w.stats w.owner with
    | some (g, st, ow) => { w with reporter := g, stats := st, owner := ow }
    | none => w
  else
    match w.updater.step false w.stats w.owner with
    | some (g, st, ow) => { w with updater := g, stats := st, owner := ow }
    | none => w

/-- The goroutines run in the order of the schedule. -/
def World.run (w : World) (schedule : List Bool) : World :=
  schedule.foldl World.step w

/-- `generateTraffic` is about to call `stats.update(60, nil)` on zeroed counters while the
reporter goroutine of `main` is about to call `stats.display()`. -/
def racingWorld : World :=
  { stats := Statistics.zero, owner := none,
    updater := { ops := updateOps 60 none, seen := [] },
    reporter := { ops := displayOps, seen := [] } }

/-- The updater runs `Lock` and `PacketsSent++`, the reporter runs the whole of `display`,
then the updater runs `BytesSent += 60` and `Unlock`. -/
def racingSchedule : List Bool := [false, false, true, true, true, true, false, false]

set_option maxRecDepth 8000

/-! ## Frame construction -/

theorem update_ok (s : Statistics) (bytes : Nat) :
    s.update bytes none =
      { s with PacketsSent := (s.PacketsSent + 1) % 2 ^ 64,
               BytesSent := (s.BytesSent + bytes) % 2 ^ 64 } := by
  simp [Statistics.update]

theorem update_failed (s : Statistics) (bytes : Nat) (msg : String) :
    s.update bytes (some msg) = { s with Errors := (s.Errors + 1) % 2 ^ 64 } := by
  simp [Statistics.update]

theorem updates_cons (s : Statistics) (c : UpdateCall) (cs : List UpdateCall) :
    s.updates (c :: cs) = (s.update c.bytes c.err).updates cs := rfl

theorem updates_append (s : Statistics) (xs ys : List UpdateCall) :
    s.updates (xs ++ ys) = (s.updates xs).updates ys := by
  simp [Statistics.updates, List.foldl_append]

/-- Closed form of a sequence of updates, modulo `2 ^ 64`. -/
theorem updates_closed_form (calls : List UpdateCall) (s : Statistics) :
    (s.updates calls).PacketsSent % 2 ^ 64 = (s.PacketsSent + okCalls calls) % 2 ^ 64 ∧
    (s.updates calls).BytesSent % 2 ^ 64 = (s.BytesSent + okBytes calls) % 2 ^ 64 ∧
    (s.updates calls).Errors % 2 ^ 64 = (s.Errors + failedCalls calls) % 2 ^ 64 := by
  induction calls generalizing s with
  | nil => simp [Statistics.updates, okCalls, okBytes, failedCalls]
  | cons c cs ih =>
    rw [updates_cons]
    obtain ⟨h1, h2, h3⟩ := ih (s.update c.bytes c.err)
    rw [h1, h2, h3]
    cases he : c.err with
    | none =>
      simp only [update_ok, okCalls, failedCalls, okBytes, List.countP_cons, he]
      simp
      refine ⟨?_, ?_⟩ <;> omega
    | some msg =>
      simp only [update_failed, okCalls, failedCalls, okBytes, List.countP_cons, he]
      simp
      omega

theorem update_inRange (s : Statistics) (bytes : Nat) (err : GoError) (h : s.inRange) :
    (s.update bytes err).inRange := by
  obtain ⟨h1, h2, h3⟩ := h
  cases err with
  | none =>
    rw [update_ok]
    exact ⟨Nat.mod_lt _ (by decide), Nat.mod_lt _ (by decide), h3⟩
  | some msg =>
    rw [update_failed]
    exact ⟨h1, h2, Nat.mod_lt _ (by decide)⟩

theorem updates_inRange (calls : List UpdateCall) (s : Statistics) (h : s.inRange) :
    (s.updates calls).inRange := by
  induction calls generalizing s with
  | nil => exact h
  | cons c cs ih => exact ih _ (update_inRange s c.bytes c.err h)

theorem okBytes_uniform (b : Nat) (calls : List UpdateCall)
    (h : ∀ c ∈ calls, c.err = none → c.bytes = b) : okBytes calls = okCalls calls * b := by
  induction calls with
  | nil => simp [okBytes, okCalls]
  | cons c cs ih =>
    have ih1 := ih (fun x hx => h x (List.mem_cons_of_mem _ hx))
    cases he : c.err with
    | none =>
      have hb := h c (List.mem_cons_self _ _) he
      simp only [okBytes, okCalls, List.countP_cons, he] at ih1 ⊢
      simp [ih1, hb, Nat.add_mul, Nat.add_comm]
    | some msg =>
      simp only [okBytes, okCalls, List.countP_cons, he] at ih1 ⊢
      simp [ih1]

theorem zero_inRange : Statistics.zero.inRange := by
  simp [Statistics.inRange, Statistics.zero]

/-- C4 (as amended): from a fresh `Statistics` value, after any interleaved sequence of
successful updates of `b` bytes each and failed updates, `PacketsSent`, `BytesSent` and
`Errors` are the number `N` of successful updates, `N * b` and the number `E` of failed
updates, each reduced modulo `2 ^ 64`, hence exactly these numbers when they are below
`2 ^ 64`; a failed update leaves `PacketsSent` and `BytesSent` as they are and a
successful one leaves `Errors` as it is. -/
theorem updates_from_zero (b : Nat) (calls : List UpdateCall)
    (hb : ∀ c ∈ calls, c.err = none → c.bytes = b) :
    (Statistics.zero.updates calls).PacketsSent = okCalls calls % 2 ^ 64 ∧
    (Statistics.zero.updates calls).BytesSent = (okCalls calls * b) % 2 ^ 64 ∧
    (Statistics.zero.updates calls).Errors = failedCalls calls % 2 ^ 64 ∧
    (okCalls calls < 2 ^ 64 →
      (Statistics.zero.updates calls).PacketsSent = okCalls calls) ∧
    (okCalls calls * b < 2 ^ 64 →
      (Statistics.zero.updates calls).BytesSent = okCalls calls * b) ∧
    (failedCalls calls < 2 ^ 64 →
      (Statistics.zero.updates calls).Errors = failedCalls calls) ∧
    (∀ (s : Statistics) (bytes : Nat) (msg : String),
      (s.update bytes (some msg)).PacketsSent = s.PacketsSent ∧
      (s.update bytes (some msg)).BytesSent = s.BytesSent) ∧
    (∀ (s : Statistics) (bytes : Nat), (s.update bytes none).Errors = s.Errors) := by
  obtain ⟨h1, h2, h3⟩ := updates_closed_form calls Statistics.zero
  obtain ⟨r1, r2, r3⟩ := updates_inRange calls Statistics.zero zero_inRange
  rw [Nat.mod_eq_of_lt r1] at h1
  rw [Nat.mod_eq_of_lt r2] at h2
  rw [Nat.mod_eq_of_lt r3] at h3
  rw [okBytes_uniform b calls hb] at h2
  simp only [Statistics.zero, Nat.zero_add] at h1 h2 h3
  have e1 : (Statistics.zero.updates calls).PacketsSent = okCalls calls % 2 ^ 64 := h1
  have e2 : (Statistics.zero.updates calls).BytesSent = (okCalls calls * b) % 2 ^ 64 := h2
  have e3 : (Statistics.zero.updates calls).Errors = failedCalls calls % 2 ^ 64 := h3
  refine ⟨e1, e2, e3, ?_, ?_, ?_, ?_, ?_⟩
  · intro h; rw [e1, Nat.mod_eq_of_lt h]
  · intro h; rw [e2, Nat.mod_eq_of_lt h]
  · intro h; rw [e3, Nat.mod_eq_of_lt h]
  · intro s bytes msg; rw [update_failed]; exact ⟨rfl, rfl⟩
  · intro s bytes; rw [update_ok]

/-- C4 witness: three successful updates of 60 bytes interleaved with two failed ones. -/
theorem updates_from_zero_witness :
    (Statistics.zero.updates
      [⟨60, none⟩, ⟨7, some "down"⟩, ⟨60, none⟩, ⟨60, none⟩, ⟨0, some "down"⟩])
      = { PacketsSent := 3, BytesSent := 180, Errors := 2 } ∧
    (Statistics.zero.updates
      [⟨60, none⟩, ⟨7, some "down"⟩, ⟨60, none⟩, ⟨60, none⟩, ⟨0, some "down"⟩]).BytesSent
      = (okCalls [⟨60, none⟩, ⟨7, some "down"⟩, ⟨60, none⟩, ⟨60, none⟩, ⟨0, some "down"⟩]
          * 60) % 2 ^ 64 :=
  ⟨by decide,
   (updates_from_zero 60
      [⟨60, none⟩, ⟨7, some "down"⟩, ⟨60, none⟩, ⟨60, none⟩, ⟨0, some "down"⟩]
      (by decide)).2.1⟩

/-- C4 counterexample: two successful updates of `2 ^ 63` bytes each leave `BytesSent`
at 0, not at `2 * 2 ^ 63`. -/
theorem updates_claim_fails :
    (2 : Nat) ^ 63 < 2 ^ 64 ∧
      (Statistics.zero.updates [⟨2 ^ 63, none⟩, ⟨2 ^ 63, none⟩]).BytesSent = 0 ∧
      ¬ updatesClaim (2 ^ 63) [⟨2 ^ 63, none⟩, ⟨2 ^ 63, none⟩] := by
  have hv : (Statistics.zero.updates [⟨2 ^ 63, none⟩, ⟨2 ^ 63, none⟩]).BytesSent = 0 := by
    decide
  refine ⟨by decide, hv, ?_⟩
  intro h
  obtain ⟨_, h2, _⟩ := h (by decide)
  rw [hv] at h2
  revert h2
  decide

/-! ## The send loop -/

theorem ethernet_serialize_length (eth : Ethernet) (b f : List Nat)
    (h : Ethernet.SerializeTo eth b = .ok f) : 60 ≤ f.length := by
  unfold Ethernet.SerializeTo at h
  dsimp only at h
  repeat' split at h
  all_goals first
    | exact Except.noConfusion h
    | (injection h with h
       subst h
       simp only [List.length_append, List.length_replicate]
       omega)

/-- Every frame `createPacket` returns has at least 60 bytes. -/
theorem createPacket_length_ge (config : PacketConfig) (p : List Nat)
    (h : createPacket config = .packet p) : 60 ≤ p.length := by
  unfold createPacket at h
  dsimp only at h
  repeat' split at h
  all_goals first
    | exact PacketResult.noConfusion h
    | (rename_i bytes hb
       injection h with h
       subst h
       simp only [Payload.SerializeTo, Dot1Q.SerializeTo, bind, Except.bind] at hb
       repeat' split at hb
       all_goals first
         | exact Except.noConfusion hb
         | exact ethernet_serialize_length _ _ _ hb)

theorem newTicker_ok (rate : Int) (h0 : 0 < rate) (h1 : rate ≤ 1000000000) :
    ∃ d, newTicker rate = .ok d := by
  unfold newTicker
  have hpos : 0 < Int.tdiv 1000000000 rate := by
    rw [Int.tdiv_eq_ediv (by omega) (by omega)]
    have := Int.le_ediv_of_mul_le (a := 1) (b := 1000000000) (c := rate) h0 (by omega)
    omega
  rw [if_neg (by omega)]
  simp only
  rw [if_neg (by omega)]
  exact ⟨_, rfl⟩

theorem newTicker_fast (rate : Int) (h : 1000000000 < rate) :
    newTicker rate = .error Panic.nonPositiveInterval := by
  unfold newTicker
  have hz : Int.tdiv 1000000000 rate = 0 := by
    rw [Int.tdiv_eq_ediv (by omega) (by omega)]
    exact Int.ediv_eq_zero_of_lt (by omega) h
  rw [if_neg (by omega)]
  simp only [hz]
  rfl

theorem framesWritten_append (a b : List Event) :
    framesWritten (a ++ b) = framesWritten a ++ framesWritten b := by
  induction a with
  | nil => rfl
  | cons e es ih =>
    cases e with
    | write f r => simp [framesWritten, ih]
    | update n r => simp [framesWritten, ih]

theorem writeResults_append (a b : List Event) :
    writeResults (a ++ b) = writeResults a ++ writeResults b := by
  induction a with
  | nil => rfl
  | cons e es ih =>
    cases e with
    | write f r => simp [writeResults, ih]
    | update n r => simp [writeResults, ih]

theorem updateCalls_append (a b : List Event) :
    updateCalls (a ++ b) = updateCalls a ++ updateCalls b := by
  induction a with
  | nil => rfl
  | cons e es ih =>
    cases e with
    | write f r => simp [updateCalls, ih]
    | update n r => simp [updateCalls, ih]

/-- A tick of sequential or random mode is one write followed by the statements after
the `switch`. -/
theorem tick_single (sink : Sink) (rnd : RandSource) (config : PacketConfig) (s : LoopState)
    (hm : config.TrafficMode = "sequential" ∨ config.TrafficMode = "random")
    (hlen : 14 ≤ s.packet.length) :
    tick sink rnd config s =
      afterSwitch config
        { s with ticks := s.ticks + 1,
                 err := sink s.trace (frameOfTick rnd config s),
                 trace := s.trace ++ [Event.write (frameOfTick rnd config s)
                   (sink s.trace (frameOfTick rnd config s))] } := by
  rcases hm with hm | hm
  · simp [tick, frameOfTick, hm]
  · have hl : ¬ s.packet.length < 14 := by omega
    simp [tick, frameOfTick, hm, hl]

theorem afterSwitch_fields (config : PacketConfig) (s : LoopState) :
    (afterSwitch config s).packet = s.packet ∧
    (afterSwitch config s).ticks = s.ticks ∧
    (afterSwitch config s).err = s.err ∧
    (afterSwitch config s).trace = s.trace ++ [Event.update s.packet.length s.err] ∧
    (afterSwitch config s).stats = s.stats.update s.packet.length s.err := by
  unfold afterSwitch
  cases config.Continuous <;> simp
  split <;> simp

theorem afterSwitch_bounded (config : PacketConfig) (s : LoopState)
    (hc : config.Continuous = false) :
    (afterSwitch config s).count = s.count + 1 ∧
    (afterSwitch config s).status =
      if s.count + 1 ≥ config.Count then Status.stopped else s.status := by
  unfold afterSwitch
  simp [hc]
  split <;> simp

theorem afterSwitch_continuous (config : PacketConfig) (s : LoopState)
    (hc : config.Continuous = true) :
    (afterSwitch config s).count = s.count ∧ (afterSwitch config s).status = s.status := by
  unfold afterSwitch
  simp [hc]

theorem step_running (sink : Sink) (rnd : RandSource) (config : PacketConfig) (s : LoopState)
    (h : s.status = Status.running) : step sink rnd config s = tick sink rnd config s := by
  simp [step, h]

theorem step_stopped (sink : Sink) (rnd : RandSource) (config : PacketConfig) (s : LoopState)
    (h : s.status = Status.stopped) : step sink rnd config s = s := by
  simp [step, h]

theorem runLoop_succ (sink : Sink) (rnd : RandSource) (config : PacketConfig) (s : LoopState)
    (n : Nat) :
    runLoop sink rnd config s (n + 1) = step sink rnd config (runLoop sink rnd config s n) :=
  rfl

/-- What one tick of sequential or random mode does to a waiting loop. -/
theorem step_single (sink : Sink) (rnd : RandSource) (config : PacketConfig) (s : LoopState)
    (hm : config.TrafficMode = "sequential" ∨ config.TrafficMode = "random")
    (hlen : 14 ≤ s.packet.length) (hr : s.status = Status.running) :
    (step sink rnd config s).packet = s.packet ∧
    (step sink rnd config s).ticks = s.ticks + 1 ∧
    (step sink rnd config s).err = sink s.trace (frameOfTick rnd config s) ∧
    (step sink rnd config s).trace = s.trace ++
      [Event.write (frameOfTick rnd config s) (sink s.trace (frameOfTick rnd config s)),
       Event.update s.packet.length (sink s.trace (frameOfTick rnd config s))] ∧
    (step sink rnd config s).stats =
      s.stats.update s.packet.length (sink s.trace (frameOfTick rnd config s)) ∧
    (config.Continuous = false →
      (step sink rnd config s).count = s.count + 1 ∧
      (step sink rnd config s).status =
        if s.count + 1 ≥ config.Count then Status.stopped else Status.running) ∧
    (config.Continuous = true →
      (step sink rnd config s).count = s.count ∧
      (step sink rnd config s).status = Status.running) := by
  rw [step_running _ _ _ _ hr, tick_single _ _ _ _ hm hlen]
  obtain ⟨h1, h2, h3, h4, h5⟩ := afterSwitch_fields config
    { s with ticks := s.ticks + 1,
             err := sink s.trace (frameOfTick rnd config s),
             trace := s.trace ++ [Event.write (frameOfTick rnd config s)
               (sink s.trace (frameOfTick rnd config s))] }
  refine ⟨h1, h2, h3, ?_, h5, ?_, ?_⟩
  · rw [h4]; simp
  · intro hc
    obtain ⟨c1, c2⟩ := afterSwitch_bounded config
      { s with ticks := s.ticks + 1,
               err := sink s.trace (frameOfTick rnd config s),
               trace := s.trace ++ [Event.write (frameOfTick rnd config s)
                 (sink s.trace (frameOfTick rnd config s))] } hc
    exact ⟨c1, by rw [c2]; simp only [hr]⟩
  · intro hc
    obtain ⟨c1, c2⟩ := afterSwitch_continuous config
      { s with ticks := s.ticks + 1,
               err := sink s.trace (frameOfTick rnd config s),
               trace := s.trace ++ [Event.write (frameOfTick rnd config s)
                 (sink s.trace (frameOfTick rnd config s))] } hc
    exact ⟨c1, by rw [c2]; exact hr⟩

/-- The bounded loop of sequential or random mode after `n` ticks of the ticker. -/
theorem bounded_run (sink : Sink) (rnd : RandSource) (config : PacketConfig)
    (p : List Nat) (stats : Statistics)
    (hm : config.TrafficMode = "sequential" ∨ config.TrafficMode = "random")
    (hc : config.Continuous = false) (hC : 1 ≤ config.Count) (hlen : 14 ≤ p.length)
    (n : Nat) :
    (runLoop sink rnd config (initialState p stats) n).packet = p ∧
    ((n : Int) < config.Count →
      (runLoop sink rnd config (initialState p stats) n).status = Status.running ∧
      (runLoop sink rnd config (initialState p stats) n).ticks = n ∧
      (runLoop sink rnd config (initialState p stats) n).count = n ∧
      (framesWritten (runLoop sink rnd config (initialState p stats) n).trace).length = n) ∧
    (config.Count ≤ (n : Int) →
      (runLoop sink rnd config (initialState p stats) n).status = Status.stopped ∧
      ((runLoop sink rnd config (initialState p stats) n).ticks : Int) = config.Count ∧
      (runLoop sink rnd config (initialState p stats) n).count = config.Count ∧
      ((framesWritten (runLoop sink rnd config (initialState p stats) n).trace).length : Int)
        = config.Count) := by
  induction n with
  | zero =>
    refine ⟨rfl, fun _ => ⟨rfl, rfl, rfl, rfl⟩, fun h => ?_⟩
    simp at h
    omega
  | succ n ih =>
    obtain ⟨ip, irun, istop⟩ := ih
    simp only [runLoop_succ]
    by_cases hn : (n : Int) < config.Count
    · obtain ⟨r1, r2, r3, r4⟩ := irun hn
      obtain ⟨s1, s2, _, s4, _, s6, _⟩ := step_single sink rnd config
        (runLoop sink rnd config (initialState p stats) n) hm (by rw [ip]; exact hlen) r1
      obtain ⟨c1, c2⟩ := s6 hc
      have hfr : (framesWritten (step sink rnd config
          (runLoop sink rnd config (initialState p stats) n)).trace).length = n + 1 := by
        rw [s4, framesWritten_append]
        simp [framesWritten, r4]
      refine ⟨by rw [s1, ip], ?_, ?_⟩
      · intro hlt
        refine ⟨?_, by rw [s2, r2], by rw [c1, r3]; push_cast; rfl, hfr⟩
        rw [c2, r3, if_neg]
        push_cast at hlt
        omega
      · intro hge
        push_cast at hge
        have heq : config.Count = (n : Int) + 1 := by omega
        refine ⟨?_, ?_, ?_, ?_⟩
        · rw [c2, r3, if_pos]
          omega
        · rw [s2, r2, heq]; push_cast; rfl
        · rw [c1, r3, heq]
        · rw [hfr, heq]; push_cast; rfl
    · have hge : config.Count ≤ (n : Int) := by omega
      obtain ⟨t1, t2, t3, t4⟩ := istop hge
      rw [step_stopped _ _ _ _ t1]
      refine ⟨ip, ?_, fun _ => ⟨t1, t2, t3, t4⟩⟩
      intro hlt
      push_cast at hlt
      omega

/-- C5 (as amended): for every configuration on which `createPacket` succeeds, with
`Continuous = false`, `Count = C >= 1`, `0 < Rate <= 10^9` and mode sequential or random,
and for every behaviour of the sink and of the random source, the loop is still waiting
with `n` ticks and `n` writes done after `n < C` ticks, and has stopped with exactly `C`
ticks and `C` write attempts done once the ticker has delivered `C` ticks or more. -/
theorem generateTraffic_bounded (sink : Sink) (rnd : RandSource) (config : PacketConfig)
    (stats : Statistics) (p : List Nat) (n : Nat)
    (hp : createPacket config = .packet p)
    (hc : config.Continuous = false) (hC : 1 ≤ config.Count)
    (hr0 : 0 < config.Rate) (hr1 : config.Rate ≤ 1000000000)
    (hm : config.TrafficMode = "sequential" ∨ config.TrafficMode = "random") :
    ∃ s, generateTraffic sink rnd config stats n = .loop s ∧
      ((n : Int) < config.Count →
        s.status = Status.running ∧ s.ticks = n ∧ (framesWritten s.trace).length = n) ∧
      (config.Count ≤ (n : Int) →
        s.status = Status.stopped ∧ (s.ticks : Int) = config.Count ∧
        ((framesWritten s.trace).length : Int) = config.Count) := by
  obtain ⟨d, hd⟩ := newTicker_ok config.Rate hr0 hr1
  have hlen : 14 ≤ p.length := by
    have := createPacket_length_ge config p hp
    omega
  obtain ⟨_, h2, h3⟩ := bounded_run sink rnd config p stats hm hc hC hlen n
  refine ⟨runLoop sink rnd config (initialState p stats) n, ?_, ?_, ?_⟩
  · unfold generateTraffic
    simp only [hp, hd]
  · intro h
    obtain ⟨a, b, _, c⟩ := h2 h
    exact ⟨a, b, c⟩
  · intro h
    obtain ⟨a, b, _, c⟩ := h3 h
    exact ⟨a, b, c⟩

/-- C5 witness: the example configuration (count 5) observed after 7 ticks, with a sink
whose writes all fail. -/
theorem generateTraffic_bounded_witness :
    ∃ s, generateTraffic failingSink (fun _ _ => 0) exampleConfig Statistics.zero 7 = .loop s ∧
      (((7 : Nat) : Int) < exampleConfig.Count →
        s.status = Status.running ∧ s.ticks = 7 ∧ (framesWritten s.trace).length = 7) ∧
      (exampleConfig.Count ≤ ((7 : Nat) : Int) →
        s.status = Status.stopped ∧ (s.ticks : Int) = exampleConfig.Count ∧
        ((framesWritten s.trace).length : Int) = exampleConfig.Count) :=
  generateTraffic_bounded failingSink (fun _ _ => 0) exampleConfig Statistics.zero
    (exampleDst ++ exampleSrc ++ [8, 0] ++ List.replicate 46 0) 7
    (by decide) (by decide) (by decide) (by decide) (by decide) (by decide)

/-- C5 counterexample: with `Rate = 2 * 10^9` the period `time.Second / Rate` is 0 and
`time.NewTicker` panics before the first tick; with a malformed address the program exits
through `log.Fatal` before the first tick. -/
theorem generateTraffic_bounded_claim_fails :
    (∀ n, generateTraffic okSink (fun _ _ => 0) fastConfig Statistics.zero n
        = .panic Panic.nonPositiveInterval) ∧
    ¬ boundedRunClaim fastConfig ∧ ¬ boundedRunClaim badSrcConfig := by
  have hfast : ∀ n, generateTraffic okSink (fun _ _ => 0) fastConfig Statistics.zero n
      = .panic Panic.nonPositiveInterval := by
    intro n
    have hp : createPacket fastConfig
        = .packet (exampleDst ++ exampleSrc ++ [8, 0] ++ List.replicate 46 0) := by decide
    unfold generateTraffic
    simp only [hp, newTicker_fast fastConfig.Rate (by decide)]
  refine ⟨hfast, ?_, ?_⟩
  · intro h
    obtain ⟨s, hs, _⟩ := h (by decide) (by decide) (by decide) (Or.inl (by decide))
      okSink (fun _ _ => 0) Statistics.zero 5 (by decide)
    rw [hfast 5] at hs
    exact TrafficResult.noConfusion hs
  · intro h
    obtain ⟨s, hs, _⟩ := h (by decide) (by decide) (by decide) (Or.inl (by decide))
      okSink (fun _ _ => 0) Statistics.zero 5 (by decide)
    have hb : generateTraffic okSink (fun _ _ => 0) badSrcConfig Statistics.zero 5
        = .fatal .invalidSourceMAC := by
      have hp : createPacket badSrcConfig = .error .invalidSourceMAC := by decide
      unfold generateTraffic
      simp only [hp]
    rw [hb] at hs
    exact TrafficResult.noConfusion hs

/-! ## Accounting of writes -/

theorem tickEvents_append (len : Nat) (a b : List (List Nat × GoError)) :
    tickEvents len (a ++ b) = tickEvents len a ++ tickEvents len b := by
  induction a with
  | nil => rfl
  | cons w ws ih => simp [tickEvents, ih]

theorem writeResults_tickEvents (len : Nat) (ws : List (List Nat × GoError)) :
    writeResults (tickEvents len ws) = ws.map (fun w => w.2) := by
  induction ws with
  | nil => rfl
  | cons w ws ih => simp [tickEvents, writeResults, ih]

theorem framesWritten_tickEvents (len : Nat) (ws : List (List Nat × GoError)) :
    framesWritten (tickEvents len ws) = ws.map (fun w => w.1) := by
  induction ws with
  | nil => rfl
  | cons w ws ih => simp [tickEvents, framesWritten, ih]

theorem updateCalls_tickEvents (len : Nat) (ws : List (List Nat × GoError)) :
    updateCalls (tickEvents len ws) = callsOf len ws := by
  induction ws with
  | nil => rfl
  | cons w ws ih => simp [tickEvents, updateCalls, callsOf, ih]

theorem okCalls_callsOf (len : Nat) (ws : List (List Nat × GoError)) :
    okCalls (callsOf len ws) = okWrites (tickEvents len ws) := by
  rw [okWrites, writeResults_tickEvents, okCalls, callsOf]
  induction ws with
  | nil => rfl
  | cons w ws ih => simp [List.countP_cons, ih]

theorem failedCalls_callsOf (len : Nat) (ws : List (List Nat × GoError)) :
    failedCalls (callsOf len ws) = failedWrites (tickEvents len ws) := by
  rw [failedWrites, writeResults_tickEvents, failedCalls, callsOf]
  induction ws with
  | nil => rfl
  | cons w ws ih => simp [List.countP_cons, ih]

theorem callsOf_uniform (len : Nat) (ws : List (List Nat × GoError)) :
    ∀ c ∈ callsOf len ws, c.err = none → c.bytes = len := by
  intro c hc _
  simp only [callsOf, List.mem_map] at hc
  obtain ⟨w, _, hw⟩ := hc
  rw [← hw]

theorem callsOf_append (len : Nat) (a b : List (List Nat × GoError)) :
    callsOf len (a ++ b) = callsOf len a ++ callsOf len b := by
  simp [callsOf]

/-- The burst loop: `k` writes of the built frame, each followed by its update; nothing
else changes. -/
theorem burstLoop_spec (sink : Sink) (k : Nat) (s : LoopState) :
    ∃ ws : List (List Nat × GoError),
      ws.length = k ∧
      (∀ w ∈ ws, w.1 = s.packet ∧ ∃ t, w.2 = sink t w.1) ∧
      (burstLoop sink k s).trace = s.trace ++ tickEvents s.packet.length ws ∧
      (burstLoop sink k s).stats = s.stats.updates (callsOf s.packet.length ws) ∧
      (burstLoop sink k s).packet = s.packet ∧
      (burstLoop sink k s).ticks = s.ticks ∧
      (burstLoop sink k s).count = s.count ∧
      (burstLoop sink k s).status = s.status := by
  induction k generalizing s with
  | zero => exact ⟨[], rfl, by simp, by simp [burstLoop, tickEvents], rfl, rfl, rfl, rfl, rfl⟩
  | succ k ih =>
    obtain ⟨ws, h1, h2, h3, h4, h5, h6, h7, h8⟩ := ih
      { s with err := sink s.trace s.packet,
               stats := s.stats.update s.packet.length (sink s.trace s.packet),
               trace := s.trace ++ [Event.write s.packet (sink s.trace s.packet)]
                 ++ [Event.update s.packet.length (sink s.trace s.packet)] }
    refine ⟨(s.packet, sink s.trace s.packet) :: ws, by simp [h1], ?_, ?_, ?_, h5, h6, h7, h8⟩
    · intro w hw
      rcases List.mem_cons.mp hw with hw | hw
      · subst hw
        exact ⟨rfl, s.trace, rfl⟩
      · exact h2 w hw
    · show (burstLoop sink k _).trace = _
      rw [h3]
      simp [tickEvents]
    · show (burstLoop sink k _).stats = _
      rw [h4]
      simp [callsOf, Statistics.updates]

/-- A tick of burst mode is the burst loop of 10 iterations. -/
theorem tick_burst (sink : Sink) (rnd : RandSource) (config : PacketConfig) (s : LoopState)
    (hm : config.TrafficMode = "burst") :
    tick sink rnd config s = burstLoop sink 10 { s with ticks := s.ticks + 1 } := by
  simp [tick, hm]

/-- One tick keeps the history accounted. -/
theorem step_accounted (sink : Sink) (rnd : RandSource) (config : PacketConfig)
    (p : List Nat) (stats0 : Statistics) (s : LoopState)
    (hm : config.TrafficMode = "sequential" ∨ config.TrafficMode = "random" ∨
      config.TrafficMode = "burst")
    (hlen : 14 ≤ p.length) (h : Accounted sink p stats0 s) :
    Accounted sink p stats0 (step sink rnd config s) := by
  obtain ⟨hp, ws, ht, hs, hsink⟩ := h
  cases hst : s.status with
  | stopped => rw [step_stopped _ _ _ _ hst]; exact ⟨hp, ws, ht, hs, hsink⟩
  | panicked q =>
    have : step sink rnd config s = s := by simp [step, hst]
    rw [this]; exact ⟨hp, ws, ht, hs, hsink⟩
  | running =>
    have single : (config.TrafficMode = "sequential" ∨ config.TrafficMode = "random") →
        Accounted sink p stats0 (step sink rnd config s) := by
      intro hm1
      obtain ⟨s1, _, _, s4, s5, _, _⟩ := step_single sink rnd config s hm1
        (by rw [hp]; exact hlen) hst
      refine ⟨by rw [s1, hp], ws ++ [(frameOfTick rnd config s,
        sink s.trace (frameOfTick rnd config s))], ?_, ?_, ?_⟩
      · rw [s4, ht, tickEvents_append, hp]; rfl
      · rw [s5, hs, callsOf_append, updates_append, hp]; rfl
      · intro w hw
        rcases List.mem_append.mp hw with hw | hw
        · exact hsink w hw
        · simp only [List.mem_singleton] at hw
          subst hw
          exact ⟨s.trace, rfl⟩
    rcases hm with hm | hm | hm
    · exact single (Or.inl hm)
    · exact single (Or.inr hm)
    · rw [step_running _ _ _ _ hst, tick_burst _ _ _ _ hm]
      obtain ⟨bs, _, b2, b3, b4, b5, _, _, _⟩ := burstLoop_spec sink 10
        { s with ticks := s.ticks + 1 }
      refine ⟨by rw [b5]; exact hp, ws ++ bs, ?_, ?_, ?_⟩
      · rw [b3, tickEvents_append]
        show s.trace ++ tickEvents s.packet.length bs = _
        rw [ht, hp]
      · rw [b4, callsOf_append, updates_append]
        show s.stats.updates (callsOf s.packet.length bs) = _
        rw [hs, hp]
      · intro w hw
        rcases List.mem_append.mp hw with hw | hw
        · exact hsink w hw
        · exact (b2 w hw).2

/-- Every tick boundary of a run is accounted. -/
theorem runLoop_accounted (sink : Sink) (rnd : RandSource) (config : PacketConfig)
    (p : List Nat) (stats0 : Statistics)
    (hm : config.TrafficMode = "sequential" ∨ config.TrafficMode = "random" ∨
      config.TrafficMode = "burst")
    (hlen : 14 ≤ p.length) (n : Nat) :
    Accounted sink p stats0 (runLoop sink rnd config (initialState p stats0) n) := by
  induction n with
  | zero => exact ⟨rfl, [], rfl, rfl, by simp⟩
  | succ n ih =>
    rw [runLoop_succ]
    exact step_accounted sink rnd config p stats0 _ hm hlen ih

/-- The counters of an accounted history that started from zero. -/
theorem accounted_counters (sink : Sink) (p : List Nat) (s : LoopState)
    (h : Accounted sink p Statistics.zero s) :
    s.stats.PacketsSent = okWrites s.trace % 2 ^ 64 ∧
    s.stats.Errors = failedWrites s.trace % 2 ^ 64 ∧
    s.stats.BytesSent = (okWrites s.trace * p.length) % 2 ^ 64 := by
  obtain ⟨_, ws, ht, hs, _⟩ := h
  obtain ⟨h1, h2, h3⟩ := updates_closed_form (callsOf p.length ws) Statistics.zero
  obtain ⟨r1, r2, r3⟩ := updates_inRange (callsOf p.length ws) Statistics.zero zero_inRange
  rw [Nat.mod_eq_of_lt r1] at h1
  rw [Nat.mod_eq_of_lt r2] at h2
  rw [Nat.mod_eq_of_lt r3] at h3
  rw [okBytes_uniform p.length _ (callsOf_uniform p.length ws)] at h2
  rw [okCalls_callsOf] at h1 h2
  rw [failedCalls_callsOf] at h3
  simp only [Statistics.zero, Nat.zero_add] at h1 h2 h3
  rw [hs, ht]
  exact ⟨h1, h3, h2⟩

theorem generateTraffic_loop (sink : Sink) (rnd : RandSource) (config : PacketConfig)
    (stats : Statistics) (n : Nat) (p : List Nat) (s : LoopState)
    (hp : createPacket config = .packet p)
    (hs : generateTraffic sink rnd config stats n = .loop s) :
    s = runLoop sink rnd config (initialState p stats) n := by
  unfold generateTraffic at hs
  simp only [hp] at hs
  split at hs
  · exact TrafficResult.noConfusion hs
  · injection hs with hs
    exact hs.symm

theorem frameOfTick_spec (rnd : RandSource) (config : PacketConfig) (s : LoopState)
    (hlen : 14 ≤ s.packet.length) :
    (frameOfTick rnd config s).length = s.packet.length ∧
    (frameOfTick rnd config s).take 14 = s.packet.take 14 ∧
    (config.TrafficMode = "sequential" → frameOfTick rnd config s = s.packet) := by
  unfold frameOfTick
  by_cases hr : config.TrafficMode = "random"
  · simp only [hr, if_true]
    refine ⟨?_, ?_, ?_⟩
    · simp
      omega
    · have h14 : (List.take 14 s.packet).length = 14 := by simp; omega
      rw [List.take_append_of_le_length (by omega), List.take_take]
      simp
    · intro h
      exact absurd h (by decide)
  · simp [hr]

/-- In sequential and random mode every tick boundary has one written frame per tick, each
as long as the built frame and with its first 14 bytes; in sequential mode each is the
built frame. -/
theorem single_frames (sink : Sink) (rnd : RandSource) (config : PacketConfig)
    (p : List Nat) (stats : Statistics)
    (hm : config.TrafficMode = "sequential" ∨ config.TrafficMode = "random")
    (hlen : 14 ≤ p.length) (n : Nat) :
    (runLoop sink rnd config (initialState p stats) n).packet = p ∧
    (framesWritten (runLoop sink rnd config (initialState p stats) n).trace).length
      = (runLoop sink rnd config (initialState p stats) n).ticks ∧
    ∀ f ∈ framesWritten (runLoop sink rnd config (initialState p stats) n).trace,
      f.length = p.length ∧ f.take 14 = p.take 14 ∧
      (config.TrafficMode = "sequential" → f = p) := by
  induction n with
  | zero => exact ⟨rfl, rfl, fun f hf => by simp [runLoop, initialState, framesWritten] at hf⟩
  | succ n ih =>
    obtain ⟨ip, il, ia⟩ := ih
    rw [runLoop_succ]
    cases hst : (runLoop sink rnd config (initialState p stats) n).status with
    | stopped => rw [step_stopped _ _ _ _ hst]; exact ⟨ip, il, ia⟩
    | panicked q =>
      have hs : step sink rnd config (runLoop sink rnd config (initialState p stats) n)
          = runLoop sink rnd config (initialState p stats) n := by simp [step, hst]
      rw [hs]; exact ⟨ip, il, ia⟩
    | running =>
      obtain ⟨s1, s2, _, s4, _, _, _⟩ := step_single sink rnd config
        (runLoop sink rnd config (initialState p stats) n) hm (by rw [ip]; exact hlen) hst
      obtain ⟨f1, f2, f3⟩ := frameOfTick_spec rnd config
        (runLoop sink rnd config (initialState p stats) n) (by rw [ip]; exact hlen)
      rw [ip] at f1 f2 f3
      refine ⟨by rw [s1, ip], ?_, ?_⟩
      · rw [s4, framesWritten_append, s2]
        simp [framesWritten, il]
      · intro f hf
        rw [s4, framesWritten_append] at hf
        rcases List.mem_append.mp hf with hf | hf
        · exact ia f hf
        · simp only [framesWritten, List.mem_singleton] at hf
          subst hf
          exact ⟨f1, f2, f3⟩

/-- The unbounded loop of sequential or random mode never leaves the waiting state. -/
theorem continuous_run (sink : Sink) (rnd : RandSource) (config : PacketConfig)
    (p : List Nat) (stats : Statistics)
    (hm : config.TrafficMode = "sequential" ∨ config.TrafficMode = "random")
    (hc : config.Continuous = true) (hlen : 14 ≤ p.length) (n : Nat) :
    (runLoop sink rnd config (initialState p stats) n).status = Status.running ∧
    (runLoop sink rnd config (initialState p stats) n).ticks = n := by
  induction n with
  | zero => exact ⟨rfl, rfl⟩
  | succ n ih =>
    obtain ⟨ir, it⟩ := ih
    obtain ⟨ip, _, _⟩ := single_frames sink rnd config p stats hm hlen n
    rw [runLoop_succ]
    obtain ⟨_, s2, _, _, _, _, s7⟩ := step_single sink rnd config
      (runLoop sink rnd config (initialState p stats) n) hm (by rw [ip]; exact hlen) ir
    exact ⟨(s7 hc).2, by rw [s2, it]⟩

/-- With a sink that never fails every write is counted as successful. -/
theorem okSink_counts (p : List Nat) (stats0 : Statistics) (s : LoopState)
    (h : Accounted okSink p stats0 s) :
    okWrites s.trace = (framesWritten s.trace).length ∧ failedWrites s.trace = 0 := by
  have key : ∀ ws : List (List Nat × GoError), (∀ w ∈ ws, w.2 = none) →
      List.countP (fun e => e == none) (ws.map (fun w => w.2)) = (ws.map (fun w => w.1)).length ∧
      List.countP (fun e => e != none) (ws.map (fun w => w.2)) = 0 := by
    intro ws
    induction ws with
    | nil => intro _; exact ⟨rfl, rfl⟩
    | cons w ws ih =>
      intro hnone
      have hw := hnone w (List.mem_cons_self _ _)
      obtain ⟨i1, i2⟩ := ih (fun x hx => hnone x (List.mem_cons_of_mem _ hx))
      simp only [List.map_cons, List.countP_cons, hw, List.length_cons, List.length_map]
        at i1 i2 ⊢
      simp [i1, i2]
  obtain ⟨_, ws, ht, _, hsink⟩ := h
  rw [ht, okWrites, failedWrites, writeResults_tickEvents, framesWritten_tickEvents]
  apply key
  intro w hw
  obtain ⟨t, ht⟩ := hsink w hw
  rw [ht]; rfl

theorem runLoop_stopped_stable (sink : Sink) (rnd : RandSource) (config : PacketConfig)
    (s : LoopState) (n : Nat)
    (h : (runLoop sink rnd config s n).status = Status.stopped) (k : Nat) :
    runLoop sink rnd config s (n + k) = runLoop sink rnd config s n := by
  induction k with
  | zero => rfl
  | succ k ih =>
    rw [← Nat.add_assoc, runLoop_succ, ih, step_stopped _ _ _ _ h]

/-- C6 (as amended): at every tick boundary of a run in mode sequential, random or burst
that started from zeroed counters, `PacketsSent` is the number of successful sink writes
so far and `Errors` the number of failed ones, both modulo `2 ^ 64`, and `BytesSent` is
`PacketsSent` times the length of the built frame modulo `2 ^ 64`; the three equalities
are exact as long as the number of writes times the frame length is below `2 ^ 64`. The
sequential example (payload 46, no VLAN, count 5, a sink that never fails) ends with 5
writes, `PacketsSent = 5` and `BytesSent = 5 * 60`. -/
theorem generateTraffic_accounting (sink : Sink) (rnd : RandSource) (config : PacketConfig)
    (n : Nat) (p : List Nat) (s : LoopState)
    (hm : config.TrafficMode = "sequential" ∨ config.TrafficMode = "random" ∨
      config.TrafficMode = "burst")
    (hp : createPacket config = .packet p)
    (hs : generateTraffic sink rnd config Statistics.zero n = .loop s) :
    s.stats.PacketsSent = okWrites s.trace % 2 ^ 64 ∧
    s.stats.Errors = failedWrites s.trace % 2 ^ 64 ∧
    s.stats.BytesSent = (s.stats.PacketsSent * p.length) % 2 ^ 64 ∧
    ((okWrites s.trace + failedWrites s.trace) * p.length < 2 ^ 64 →
      s.stats.PacketsSent = okWrites s.trace ∧ s.stats.Errors = failedWrites s.trace ∧
      s.stats.BytesSent = s.stats.PacketsSent * p.length) ∧
    (∀ (r : RandSource) (m : Nat), 5 ≤ m →
      ∃ s5, generateTraffic okSink r exampleConfig Statistics.zero m = .loop s5 ∧
        s5.status = Status.stopped ∧ (framesWritten s5.trace).length = 5 ∧
        s5.stats.PacketsSent = 5 ∧ s5.stats.BytesSent = 5 * 60) := by
  have h60 := createPacket_length_ge config p hp
  have hrun := generateTraffic_loop sink rnd config Statistics.zero n p s hp hs
  have hacc : Accounted sink p Statistics.zero s := by
    rw [hrun]
    exact runLoop_accounted sink rnd config p Statistics.zero hm (by omega) n
  obtain ⟨c1, c2, c3⟩ := accounted_counters sink p s hacc
  have c4 : s.stats.BytesSent = (s.stats.PacketsSent * p.length) % 2 ^ 64 := by
    rw [c3, c1, Nat.mod_mul_mod]
  refine ⟨c1, c2, c4, ?_, ?_⟩
  · intro hlt
    have hle1 : okWrites s.trace ≤ (okWrites s.trace + failedWrites s.trace) * p.length :=
      le_trans (Nat.le_add_right _ _) (Nat.le_mul_of_pos_right _ (by omega))
    have hle2 : failedWrites s.trace ≤ (okWrites s.trace + failedWrites s.trace) * p.length :=
      le_trans (Nat.le_add_left _ _) (Nat.le_mul_of_pos_right _ (by omega))
    have hle3 : okWrites s.trace * p.length
        ≤ (okWrites s.trace + failedWrites s.trace) * p.length :=
      Nat.mul_le_mul_right _ (Nat.le_add_right _ _)
    have e1 : s.stats.PacketsSent = okWrites s.trace := by
      rw [c1, Nat.mod_eq_of_lt (by omega)]
    refine ⟨e1, ?_, ?_⟩
    · rw [c2, Nat.mod_eq_of_lt (by omega)]
    · rw [c3, e1, Nat.mod_eq_of_lt (by omega)]
  · intro r m hm5
    have hpe : createPacket exampleConfig = .packet examplePacket := by decide
    obtain ⟨d, hd⟩ := newTicker_ok exampleConfig.Rate (by decide) (by decide)
    have hex : generateTraffic okSink r exampleConfig Statistics.zero m
        = .loop (runLoop okSink r exampleConfig (initialState examplePacket Statistics.zero) m) := by
      unfold generateTraffic
      simp only [hpe, hd]
    obtain ⟨_, _, b3⟩ := bounded_run okSink r exampleConfig examplePacket Statistics.zero
      (Or.inl rfl) rfl (by decide) (by decide) m
    obtain ⟨t1, _, _, t4⟩ := b3 (by
      have : exampleConfig.Count = 5 := rfl
      rw [this]; exact_mod_cast hm5)
    have hacc5 := runLoop_accounted okSink r exampleConfig examplePacket Statistics.zero
      (Or.inl rfl) (by decide) m
    obtain ⟨k1, _, k3⟩ := accounted_counters okSink examplePacket _ hacc5
    obtain ⟨o1, _⟩ := okSink_counts examplePacket Statistics.zero _ hacc5
    have hfive : (framesWritten (runLoop okSink r exampleConfig
        (initialState examplePacket Statistics.zero) m).trace).length = 5 := by
      have : exampleConfig.Count = 5 := rfl
      rw [this] at t4
      exact_mod_cast t4
    refine ⟨_, hex, t1, hfive, ?_, ?_⟩
    · rw [k1, o1, hfive]
      decide
    · rw [k3, o1, hfive]
      decide

/-- C6 witness: two ticks of burst mode with a sink that fails on every second call. -/
theorem generateTraffic_accounting_witness :
    burstRun.stats = { PacketsSent := 10, BytesSent := 600, Errors := 10 } ∧
    burstRun.stats.PacketsSent = okWrites burstRun.trace % 2 ^ 64 ∧
    burstRun.stats.Errors = failedWrites burstRun.trace % 2 ^ 64 ∧
    burstRun.stats.BytesSent = (burstRun.stats.PacketsSent * examplePacket.length) % 2 ^ 64 :=
  have h := generateTraffic_accounting flakySink (fun _ _ => 0) burstConfig 2 examplePacket
    burstRun (Or.inr (Or.inr (by decide))) (by decide) (by decide)
  ⟨by decide, h.1, h.2.1, h.2.2.1⟩

/-- C6 counterexample: after `2 ^ 64` ticks of the unbounded sequential example with a sink
that never fails, `2 ^ 64` writes have succeeded and `PacketsSent` is 0. -/
theorem generateTraffic_accounting_claim_fails :
    longRun.stats.PacketsSent = 0 ∧ okWrites longRun.trace = 2 ^ 64 ∧
      ¬ accountingClaim okSink (fun _ _ => 0) continuousConfig (2 ^ 64) := by
  have hp : createPacket continuousConfig = .packet examplePacket := by decide
  have hmode : continuousConfig.TrafficMode = "sequential" := by decide
  have hcont : continuousConfig.Continuous = true := by decide
  have hlen : 14 ≤ examplePacket.length := by decide
  obtain ⟨d, hd⟩ := newTicker_ok continuousConfig.Rate (by decide) (by decide)
  have hex : generateTraffic okSink (fun _ _ => 0) continuousConfig Statistics.zero (2 ^ 64)
      = .loop longRun := by
    unfold generateTraffic
    simp only [hp, hd]
    rfl
  have hacc : Accounted okSink examplePacket Statistics.zero longRun :=
    runLoop_accounted okSink (fun _ _ => 0) continuousConfig examplePacket Statistics.zero
      (Or.inl hmode) hlen (2 ^ 64)
  obtain ⟨k1, _, _⟩ := accounted_counters okSink examplePacket longRun hacc
  obtain ⟨o1, _⟩ := okSink_counts examplePacket Statistics.zero longRun hacc
  obtain ⟨_, f2, _⟩ := single_frames okSink (fun _ _ => 0) continuousConfig examplePacket
    Statistics.zero (Or.inl hmode) hlen (2 ^ 64)
  obtain ⟨_, t2⟩ := continuous_run okSink (fun _ _ => 0) continuousConfig examplePacket
    Statistics.zero (Or.inl hmode) hcont hlen (2 ^ 64)
  have hok : okWrites longRun.trace = 2 ^ 64 := by
    rw [o1]
    exact f2.trans t2
  have hzero : longRun.stats.PacketsSent = 0 := by
    rw [k1, hok, Nat.mod_self]
  refine ⟨hzero, hok, ?_⟩
  intro h
  obtain ⟨e1, _, _⟩ := h (Or.inl hmode) examplePacket longRun hp hex
  rw [hzero, hok] at e1
  exact absurd e1 (by decide)

/-! ## Failed writes, bursts and the frames written -/

/-- C7 (as amended): in sequential and random mode a tick whose sink write returns an
error makes exactly one write attempt, sets `Errors` to `(Errors + 1) mod 2 ^ 64` (one
more, unless it was `2 ^ 64 - 1`), leaves `PacketsSent` and `BytesSent` unchanged, and
leaves the loop in the same control state (status and tick tally) as a tick whose write
succeeds. -/
theorem tick_failed_write (sink : Sink) (rnd : RandSource) (config : PacketConfig)
    (s : LoopState)
    (hm : config.TrafficMode = "sequential" ∨ config.TrafficMode = "random")
    (hr : s.status = Status.running) (hlen : 14 ≤ s.packet.length)
    (hfail : sink s.trace (frameOfTick rnd config s) ≠ none) :
    (tick sink rnd config s).trace = s.trace ++
      [Event.write (frameOfTick rnd config s) (sink s.trace (frameOfTick rnd config s)),
       Event.update s.packet.length (sink s.trace (frameOfTick rnd config s))] ∧
    (framesWritten (tick sink rnd config s).trace).length
      = (framesWritten s.trace).length + 1 ∧
    (tick sink rnd config s).stats.Errors = (s.stats.Errors + 1) % 2 ^ 64 ∧
    (s.stats.Errors + 1 < 2 ^ 64 →
      (tick sink rnd config s).stats.Errors = s.stats.Errors + 1) ∧
    (tick sink rnd config s).stats.PacketsSent = s.stats.PacketsSent ∧
    (tick sink rnd config s).stats.BytesSent = s.stats.BytesSent ∧
    (tick sink rnd config s).status = (tick okSink rnd config s).status ∧
    (tick sink rnd config s).count = (tick okSink rnd config s).count ∧
    (tick sink rnd config s).status ≠ Status.panicked Panic.sliceBounds := by
  obtain ⟨_, _, _, s4, s5, s6, s7⟩ := step_single sink rnd config s hm hlen hr
  obtain ⟨_, _, _, _, _, o6, o7⟩ := step_single okSink rnd config s hm hlen hr
  rw [step_running _ _ _ _ hr] at s4 s5 s6 s7 o6 o7
  obtain ⟨msg, hmsg⟩ := Option.ne_none_iff_exists'.mp hfail
  have herr : (tick sink rnd config s).stats.Errors = (s.stats.Errors + 1) % 2 ^ 64 := by
    rw [s5, hmsg, update_failed]
  have hctl : (tick sink rnd config s).status = (tick okSink rnd config s).status ∧
      (tick sink rnd config s).count = (tick okSink rnd config s).count ∧
      (tick sink rnd config s).status ≠ Status.panicked Panic.sliceBounds := by
    cases hc : config.Continuous with
    | false =>
      obtain ⟨a1, a2⟩ := s6 hc
      obtain ⟨b1, b2⟩ := o6 hc
      refine ⟨by rw [a2, b2], by rw [a1, b1], ?_⟩
      rw [a2]
      split <;> exact fun h => Status.noConfusion h
    | true =>
      obtain ⟨a1, a2⟩ := s7 hc
      obtain ⟨b1, b2⟩ := o7 hc
      refine ⟨by rw [a2, b2], by rw [a1, b1], ?_⟩
      rw [a2]
      exact fun h => Status.noConfusion h
  refine ⟨s4, ?_, herr, ?_, ?_, ?_, hctl⟩
  · rw [s4, framesWritten_append]
    simp [framesWritten]
  · intro hlt
    rw [herr, Nat.mod_eq_of_lt hlt]
  · rw [s5, hmsg, update_failed]
  · rw [s5, hmsg, update_failed]

/-- C7 witness: the first tick of the example configuration with a sink whose writes all
fail. -/
theorem tick_failed_write_witness :
    (tick failingSink (fun _ _ => 0) exampleConfig
      (initialState examplePacket Statistics.zero)).stats
      = { PacketsSent := 0, BytesSent := 0, Errors := 1 } ∧
    (tick failingSink (fun _ _ => 0) exampleConfig
      (initialState examplePacket Statistics.zero)).status
      = (tick okSink (fun _ _ => 0) exampleConfig
          (initialState examplePacket Statistics.zero)).status :=
  ⟨by decide,
   (tick_failed_write failingSink (fun _ _ => 0) exampleConfig
      (initialState examplePacket Statistics.zero) (Or.inl (by decide)) (by decide)
      (by decide) (by decide)).2.2.2.2.2.2.1⟩

/-- C7 counterexample: a failed write on counters with `Errors = 2 ^ 64 - 1` leaves
`Errors` at 0. -/
theorem tick_failed_write_claim_fails :
    (tick failingSink (fun _ _ => 0) exampleConfig saturatedState).stats.Errors = 0 ∧
      ¬ failedTickClaim failingSink (fun _ _ => 0) exampleConfig saturatedState := by
  have h0 : (tick failingSink (fun _ _ => 0) exampleConfig saturatedState).stats.Errors = 0 := by
    decide
  refine ⟨h0, ?_⟩
  intro h
  obtain ⟨_, e, _⟩ := h (Or.inl (by decide)) (by decide) (by decide) (by decide)
  rw [h0] at e
  revert e
  decide

/-- C8: in burst mode a tick makes exactly 10 write attempts, each of the unmodified built
frame and each followed at once by the statistics update that carries its result and the
length of the built frame, whatever the results are; the built frame, the tally and the
state of the loop are left as they were. -/
theorem tick_burst_spec (sink : Sink) (rnd : RandSource) (config : PacketConfig)
    (s : LoopState) (hm : config.TrafficMode = "burst") :
    ∃ ws : List (List Nat × GoError),
      ws.length = 10 ∧
      (∀ w ∈ ws, w.1 = s.packet) ∧
      (tick sink rnd config s).trace = s.trace ++ tickEvents s.packet.length ws ∧
      (framesWritten (tick sink rnd config s).trace).length
        = (framesWritten s.trace).length + 10 ∧
      (updateCalls (tick sink rnd config s).trace).length
        = (updateCalls s.trace).length + 10 ∧
      (tick sink rnd config s).stats = s.stats.updates (callsOf s.packet.length ws) ∧
      (tick sink rnd config s).packet = s.packet ∧
      (tick sink rnd config s).count = s.count ∧
      (tick sink rnd config s).status = s.status := by
  rw [tick_burst sink rnd config s hm]
  obtain ⟨ws, h1, h2, h3, h4, h5, _, h7, h8⟩ := burstLoop_spec sink 10
    { s with ticks := s.ticks + 1 }
  refine ⟨ws, h1, fun w hw => (h2 w hw).1, h3, ?_, ?_, h4, h5, h7, h8⟩
  · rw [h3, framesWritten_append, framesWritten_tickEvents]
    simp [h1]
  · rw [h3, updateCalls_append, updateCalls_tickEvents]
    simp [callsOf, h1]

/-- C8 witness: the first tick of the example configuration in burst mode with a sink
whose writes all fail. -/
theorem tick_burst_spec_witness :
    ∃ ws : List (List Nat × GoError),
      ws.length = 10 ∧
      (∀ w ∈ ws, w.1 = (initialState examplePacket Statistics.zero).packet) ∧
      (tick failingSink (fun _ _ => 0) burstConfig
        (initialState examplePacket Statistics.zero)).trace
        = (initialState examplePacket Statistics.zero).trace
          ++ tickEvents (initialState examplePacket Statistics.zero).packet.length ws ∧
      (framesWritten (tick failingSink (fun _ _ => 0) burstConfig
        (initialState examplePacket Statistics.zero)).trace).length
        = (framesWritten (initialState examplePacket Statistics.zero).trace).length + 10 ∧
      (updateCalls (tick failingSink (fun _ _ => 0) burstConfig
        (initialState examplePacket Statistics.zero)).trace).length
        = (updateCalls (initialState examplePacket Statistics.zero).trace).length + 10 ∧
      (tick failingSink (fun _ _ => 0) burstConfig
        (initialState examplePacket Statistics.zero)).stats
        = (initialState examplePacket Statistics.zero).stats.updates
            (callsOf (initialState examplePacket Statistics.zero).packet.length ws) ∧
      (tick failingSink (fun _ _ => 0) burstConfig
        (initialState examplePacket Statistics.zero)).packet
        = (initialState examplePacket Statistics.zero).packet ∧
      (tick failingSink (fun _ _ => 0) burstConfig
        (initialState examplePacket Statistics.zero)).count
        = (initialState examplePacket Statistics.zero).count ∧
      (tick failingSink (fun _ _ => 0) burstConfig
        (initialState examplePacket Statistics.zero)).status
        = (initialState examplePacket Statistics.zero).status :=
  tick_burst_spec failingSink (fun _ _ => 0) burstConfig
    (initialState examplePacket Statistics.zero) (by decide)

/-- C9: in sequential mode, at every tick boundary of a run, the built frame is still the
frame `createPacket` returned and the frames handed to the sink, one per tick, are all
that frame. -/
theorem sequential_frames (sink : Sink) (rnd : RandSource) (config : PacketConfig)
    (stats : Statistics) (n : Nat) (p : List Nat) (s : LoopState)
    (hm : config.TrafficMode = "sequential")
    (hp : createPacket config = .packet p)
    (hs : generateTraffic sink rnd config stats n = .loop s) :
    s.packet = p ∧ framesWritten s.trace = List.replicate s.ticks p := by
  have h60 := createPacket_length_ge config p hp
  have hrun := generateTraffic_loop sink rnd config stats n p s hp hs
  obtain ⟨f1, f2, f3⟩ := single_frames sink rnd config p stats (Or.inl hm) (by omega) n
  rw [← hrun] at f1 f2 f3
  refine ⟨f1, ?_⟩
  rw [List.eq_replicate_iff]
  exact ⟨f2, fun f hf => (f3 f hf).2.2 hm⟩

/-- C9 witness: the example configuration after 3 ticks. -/
theorem sequential_frames_witness :
    (runLoop flakySink (fun _ _ => 0) exampleConfig
      (initialState examplePacket Statistics.zero) 3).packet = examplePacket ∧
    framesWritten (runLoop flakySink (fun _ _ => 0) exampleConfig
      (initialState examplePacket Statistics.zero) 3).trace
      = List.replicate (runLoop flakySink (fun _ _ => 0) exampleConfig
          (initialState examplePacket Statistics.zero) 3).ticks examplePacket :=
  sequential_frames flakySink (fun _ _ => 0) exampleConfig Statistics.zero 3 examplePacket
    (runLoop flakySink (fun _ _ => 0) exampleConfig
      (initialState examplePacket Statistics.zero) 3)
    (by decide) (by decide) (by decide)

/-- C10: in random mode, at every tick boundary of a run and for every random source, the
built frame is still the frame `createPacket` returned, one frame per tick has been handed
to the sink, each of them is as long as the built frame and starts with its first 14
bytes, so any two of them start with the same 14 bytes. -/
theorem random_frames (sink : Sink) (rnd : RandSource) (config : PacketConfig)
    (stats : Statistics) (n : Nat) (p : List Nat) (s : LoopState)
    (hm : config.TrafficMode = "random")
    (hp : createPacket config = .packet p)
    (hs : generateTraffic sink rnd config stats n = .loop s) :
    s.packet = p ∧ (framesWritten s.trace).length = s.ticks ∧
    (∀ f ∈ framesWritten s.trace, f.length = p.length ∧ f.take 14 = p.take 14) ∧
    (∀ f ∈ framesWritten s.trace, ∀ g ∈ framesWritten s.trace, f.take 14 = g.take 14) := by
  have h60 := createPacket_length_ge config p hp
  have hrun := generateTraffic_loop sink rnd config stats n p s hp hs
  obtain ⟨f1, f2, f3⟩ := single_frames sink rnd config p stats (Or.inr hm) (by omega) n
  rw [← hrun] at f1 f2 f3
  refine ⟨f1, f2, fun f hf => ⟨(f3 f hf).1, (f3 f hf).2.1⟩, ?_⟩
  intro f hf g hg
  rw [(f3 f hf).2.1, (f3 g hg).2.1]

/-- C10 witness: the example configuration in random mode after 2 ticks, with a random
source that depends on the tick and on the offset. -/
theorem random_frames_witness :
    (runLoop okSink (fun t i => 7 * t + i + 1) randomConfig
      (initialState examplePacket Statistics.zero) 2).packet = examplePacket ∧
    (framesWritten (runLoop okSink (fun t i => 7 * t + i + 1) randomConfig
      (initialState examplePacket Statistics.zero) 2).trace).length
      = (runLoop okSink (fun t i => 7 * t + i + 1) randomConfig
          (initialState examplePacket Statistics.zero) 2).ticks ∧
    (∀ f ∈ framesWritten (runLoop okSink (fun t i => 7 * t + i + 1) randomConfig
        (initialState examplePacket Statistics.zero) 2).trace,
      f.length = examplePacket.length ∧ f.take 14 = examplePacket.take 14) ∧
    (∀ f ∈ framesWritten (runLoop okSink (fun t i => 7 * t + i + 1) randomConfig
        (initialState examplePacket Statistics.zero) 2).trace,
      ∀ g ∈ framesWritten (runLoop okSink (fun t i => 7 * t + i + 1) randomConfig
        (initialState examplePacket Statistics.zero) 2).trace,
      f.take 14 = g.take 14) :=
  random_frames okSink (fun t i => 7 * t + i + 1) randomConfig Statistics.zero 2 examplePacket
    (runLoop okSink (fun t i => 7 * t + i + 1) randomConfig
      (initialState examplePacket Statistics.zero) 2)
    (by decide) (by decide) (by decide)

/-! ## Rates, unbounded runs and bursts -/

theorem newTicker_zero : newTicker 0 = .error Panic.divideByZero := rfl

theorem newTicker_negative (rate : Int) (h : rate < 0) :
    newTicker rate = .error Panic.nonPositiveInterval := by
  unfold newTicker
  have hle : Int.tdiv 1000000000 rate ≤ 0 := by
    have h1 : rate = -(-rate) := by omega
    rw [h1, Int.tdiv_neg]
    have := Int.tdiv_nonneg (a := 1000000000) (b := -rate) (by omega) (by omega)
    omega
  rw [if_neg (by omega)]
  simp only
  rw [if_pos hle]

/-- C11 (as amended): with `Rate <= 0` `generateTraffic` never enters its loop, so no
write reaches the sink and no statistics update occurs; but the configuration is not
turned down by a check: once `createPacket` has succeeded the division is evaluated and
panics for `Rate = 0`, and `time.NewTicker` panics on the non-positive period for
`Rate < 0`. -/
theorem generateTraffic_nonpositive_rate (sink : Sink) (rnd : RandSource)
    (config : PacketConfig) (stats : Statistics) (n : Nat) (hr : config.Rate ≤ 0) :
    (generateTraffic sink rnd config stats n).events = [] ∧
    (∀ s, generateTraffic sink rnd config stats n ≠ .loop s) ∧
    (∀ p, createPacket config = .packet p → config.Rate = 0 →
      generateTraffic sink rnd config stats n = .panic Panic.divideByZero) ∧
    (∀ p, createPacket config = .packet p → config.Rate < 0 →
      generateTraffic sink rnd config stats n = .panic Panic.nonPositiveInterval) := by
  have hz : ∀ p, createPacket config = .packet p → config.Rate = 0 →
      generateTraffic sink rnd config stats n = .panic Panic.divideByZero := by
    intro p hp h0
    unfold generateTraffic
    simp only [hp, h0, newTicker_zero]
  have hn : ∀ p, createPacket config = .packet p → config.Rate < 0 →
      generateTraffic sink rnd config stats n = .panic Panic.nonPositiveInterval := by
    intro p hp h0
    unfold generateTraffic
    simp only [hp, newTicker_negative _ h0]
  have hcases : (∃ e, generateTraffic sink rnd config stats n = .fatal e) ∨
      (∃ q, generateTraffic sink rnd config stats n = .panic q) := by
    cases hc : createPacket config with
    | error e => exact Or.inl ⟨e, by unfold generateTraffic; simp only [hc]⟩
    | panic q => exact Or.inr ⟨q, by unfold generateTraffic; simp only [hc]⟩
    | packet p =>
      by_cases h0 : config.Rate = 0
      · exact Or.inr ⟨_, hz p hc h0⟩
      · exact Or.inr ⟨_, hn p hc (by omega)⟩
  refine ⟨?_, ?_, hz, hn⟩
  · rcases hcases with ⟨e, he⟩ | ⟨q, hq⟩
    · rw [he]; rfl
    · rw [hq]; rfl
  · intro s hs
    rcases hcases with ⟨e, he⟩ | ⟨q, hq⟩
    · rw [he] at hs; exact TrafficResult.noConfusion hs
    · rw [hq] at hs; exact TrafficResult.noConfusion hs

/-- C11 witness: the example configuration with rate 0 and with rate -4. -/
theorem generateTraffic_nonpositive_rate_witness :
    (generateTraffic okSink (fun _ _ => 0) zeroRateConfig Statistics.zero 3).events = [] ∧
    generateTraffic okSink (fun _ _ => 0) zeroRateConfig Statistics.zero 3
      = .panic Panic.divideByZero ∧
    generateTraffic okSink (fun _ _ => 0) negativeRateConfig Statistics.zero 3
      = .panic Panic.nonPositiveInterval :=
  ⟨(generateTraffic_nonpositive_rate okSink (fun _ _ => 0) zeroRateConfig Statistics.zero 3
      (by decide)).1,
   (generateTraffic_nonpositive_rate okSink (fun _ _ => 0) zeroRateConfig Statistics.zero 3
      (by decide)).2.2.1 examplePacket (by decide) (by decide),
   (generateTraffic_nonpositive_rate okSink (fun _ _ => 0) negativeRateConfig Statistics.zero 3
      (by decide)).2.2.2 examplePacket (by decide) (by decide)⟩

/-- C11 counterexample: with rate 0 the run ends in the panic of the division by zero, with
rate -4 in the panic of `time.NewTicker`. -/
theorem rate_rejected_claim_fails :
    ¬ rateRejectedClaim zeroRateConfig ∧ ¬ rateRejectedClaim negativeRateConfig := by
  refine ⟨?_, ?_⟩
  · intro h
    obtain ⟨h1, _, _⟩ := h (by decide) okSink (fun _ _ => 0) Statistics.zero 3
    exact h1 (by decide)
  · intro h
    obtain ⟨_, h2, _⟩ := h (by decide) okSink (fun _ _ => 0) Statistics.zero 3
    exact h2 (by decide)

/-- A tick in a mode that is none of the three cases runs no case of the `switch`. -/
theorem tick_other (sink : Sink) (rnd : RandSource) (config : PacketConfig) (s : LoopState)
    (hm : otherMode config) :
    tick sink rnd config s = afterSwitch config { s with ticks := s.ticks + 1 } := by
  obtain ⟨h1, h2, h3⟩ := hm
  simp [tick, h1, h2, h3]

/-- The four cases of the mode string. -/
theorem mode_cases (config : PacketConfig) :
    (config.TrafficMode = "sequential" ∨ config.TrafficMode = "random") ∨
      config.TrafficMode = "burst" ∨ otherMode config := by
  by_cases h1 : config.TrafficMode = "sequential"
  · exact Or.inl (Or.inl h1)
  · by_cases h2 : config.TrafficMode = "random"
    · exact Or.inl (Or.inr h2)
    · by_cases h3 : config.TrafficMode = "burst"
      · exact Or.inr (Or.inl h3)
      · exact Or.inr (Or.inr ⟨h1, h2, h3⟩)

/-- One tick in any mode on a frame of at least 14 bytes: the built frame is kept, the
tick is counted, the loop waits or has stopped, and it waits when the run is unbounded. -/
theorem step_any (sink : Sink) (rnd : RandSource) (config : PacketConfig) (s : LoopState)
    (hlen : 14 ≤ s.packet.length) (hr : s.status = Status.running) :
    (step sink rnd config s).packet = s.packet ∧
    (step sink rnd config s).ticks = s.ticks + 1 ∧
    ((step sink rnd config s).status = Status.running ∨
      (step sink rnd config s).status = Status.stopped) ∧
    (config.Continuous = true → (step sink rnd config s).status = Status.running) := by
  rcases mode_cases config with hm | hm | hm
  · obtain ⟨s1, s2, _, _, _, s6, s7⟩ := step_single sink rnd config s hm hlen hr
    refine ⟨s1, s2, ?_, fun hc => (s7 hc).2⟩
    cases hc : config.Continuous with
    | false =>
      rw [(s6 hc).2]
      split
      · exact Or.inr rfl
      · exact Or.inl rfl
    | true => exact Or.inl (s7 hc).2
  · rw [step_running _ _ _ _ hr, tick_burst _ _ _ _ hm]
    obtain ⟨_, _, _, _, _, b5, b6, _, b8⟩ := burstLoop_spec sink 10
      { s with ticks := s.ticks + 1 }
    exact ⟨b5, b6, Or.inl (b8.trans hr), fun _ => b8.trans hr⟩
  · rw [step_running _ _ _ _ hr, tick_other _ _ _ _ hm]
    obtain ⟨a1, a2, _, _, _⟩ := afterSwitch_fields config { s with ticks := s.ticks + 1 }
    refine ⟨a1, a2, ?_, ?_⟩
    · cases hc : config.Continuous with
      | false =>
        rw [(afterSwitch_bounded config { s with ticks := s.ticks + 1 } hc).2]
        split
        · exact Or.inr rfl
        · exact Or.inl hr
      | true =>
        exact Or.inl ((afterSwitch_continuous config { s with ticks := s.ticks + 1 } hc).2.trans hr)
    · intro hc
      exact (afterSwitch_continuous config { s with ticks := s.ticks + 1 } hc).2.trans hr

/-- In any mode a run on a frame of at least 14 bytes keeps the built frame and never
panics. -/
theorem run_any (sink : Sink) (rnd : RandSource) (config : PacketConfig)
    (p : List Nat) (stats : Statistics) (hlen : 14 ≤ p.length) (n : Nat) :
    (runLoop sink rnd config (initialState p stats) n).packet = p ∧
    ((runLoop sink rnd config (initialState p stats) n).status = Status.running ∨
      (runLoop sink rnd config (initialState p stats) n).status = Status.stopped) := by
  induction n with
  | zero => exact ⟨rfl, Or.inl rfl⟩
  | succ n ih =>
    obtain ⟨ip, ist⟩ := ih
    rw [runLoop_succ]
    rcases ist with hr | hs
    · obtain ⟨a1, _, a3, _⟩ := step_any sink rnd config _ (by rw [ip]; exact hlen) hr
      exact ⟨a1.trans ip, a3⟩
    · rw [step_stopped _ _ _ _ hs]
      exact ⟨ip, Or.inr hs⟩

/-- An unbounded run in any mode is waiting for the next tick after every tick. -/
theorem continuous_run_any (sink : Sink) (rnd : RandSource) (config : PacketConfig)
    (p : List Nat) (stats : Statistics) (hc : config.Continuous = true)
    (hlen : 14 ≤ p.length) (n : Nat) :
    (runLoop sink rnd config (initialState p stats) n).status = Status.running ∧
    (runLoop sink rnd config (initialState p stats) n).ticks = n := by
  induction n with
  | zero => exact ⟨rfl, rfl⟩
  | succ n ih =>
    obtain ⟨ir, it⟩ := ih
    obtain ⟨ip, _⟩ := run_any sink rnd config p stats hlen n
    rw [runLoop_succ]
    obtain ⟨_, a2, _, a4⟩ := step_any sink rnd config _ (by rw [ip]; exact hlen) ir
    exact ⟨a4 hc, by rw [a2, it]⟩

theorem generateTraffic_enters (sink : Sink) (rnd : RandSource) (config : PacketConfig)
    (stats : Statistics) (n : Nat) (p : List Nat)
    (hp : createPacket config = .packet p)
    (hr0 : 0 < config.Rate) (hr1 : config.Rate ≤ 1000000000) :
    generateTraffic sink rnd config stats n
      = .loop (runLoop sink rnd config (initialState p stats) n) := by
  obtain ⟨d, hd⟩ := newTicker_ok config.Rate hr0 hr1
  unfold generateTraffic
  simp only [hp, hd]

theorem generateTraffic_loop_packet (sink : Sink) (rnd : RandSource) (config : PacketConfig)
    (stats : Statistics) (n : Nat) (s : LoopState)
    (hs : generateTraffic sink rnd config stats n = .loop s) :
    ∃ p, createPacket config = .packet p ∧ 60 ≤ p.length ∧
      s = runLoop sink rnd config (initialState p stats) n := by
  cases hc : createPacket config with
  | error e =>
    unfold generateTraffic at hs
    simp only [hc] at hs
    exact TrafficResult.noConfusion hs
  | panic q =>
    unfold generateTraffic at hs
    simp only [hc] at hs
    exact TrafficResult.noConfusion hs
  | packet p =>
    exact ⟨p, rfl, createPacket_length_ge config p hc,
      generateTraffic_loop sink rnd config stats n p s hc hs⟩

/-- C12: for a configuration with `Count = 0` and `Continuous = true`, in every traffic
mode and for every behaviour of the sink, the loop never reaches its stop condition: at
every tick boundary of a run it is still waiting for the next tick and has processed all
the `n` ticks delivered; and the run does enter its loop whenever `createPacket` succeeds
and the rate is between 1 and `10^9`. -/
theorem generateTraffic_continuous (sink : Sink) (rnd : RandSource) (config : PacketConfig)
    (stats : Statistics) (n : Nat)
    (_h0 : config.Count = 0) (hc : config.Continuous = true) :
    (∀ s, generateTraffic sink rnd config stats n = .loop s →
      s.status = Status.running ∧ s.ticks = n) ∧
    (∀ p, createPacket config = .packet p → 0 < config.Rate → config.Rate ≤ 1000000000 →
      ∃ s, generateTraffic sink rnd config stats n = .loop s ∧
        s.status = Status.running ∧ s.ticks = n) := by
  refine ⟨?_, ?_⟩
  · intro s hs
    obtain ⟨p, _, h60, hrun⟩ := generateTraffic_loop_packet sink rnd config stats n s hs
    rw [hrun]
    exact continuous_run_any sink rnd config p stats hc (by omega) n
  · intro p hp hr0 hr1
    have h60 := createPacket_length_ge config p hp
    exact ⟨_, generateTraffic_enters sink rnd config stats n p hp hr0 hr1,
      continuous_run_any sink rnd config p stats hc (by omega) n⟩

/-- C12 witness: the unbounded example configuration after 4 ticks with a sink whose writes
all fail. -/
theorem generateTraffic_continuous_witness :
    ∃ s, generateTraffic failingSink (fun _ _ => 0) continuousConfig Statistics.zero 4
        = .loop s ∧ s.status = Status.running ∧ s.ticks = 4 :=
  (generateTraffic_continuous failingSink (fun _ _ => 0) continuousConfig Statistics.zero 4
    (by decide) (by decide)).2 examplePacket (by decide) (by decide) (by decide)

/-- A run in burst mode after `n` ticks: the tally is 0, the loop waits, and `10 * n`
frames have been handed to the sink. -/
theorem burst_run (sink : Sink) (rnd : RandSource) (config : PacketConfig)
    (p : List Nat) (stats : Statistics) (hm : config.TrafficMode = "burst") (n : Nat) :
    (runLoop sink rnd config (initialState p stats) n).count = 0 ∧
    (runLoop sink rnd config (initialState p stats) n).status = Status.running ∧
    (runLoop sink rnd config (initialState p stats) n).ticks = n ∧
    (framesWritten (runLoop sink rnd config (initialState p stats) n).trace).length
      = 10 * n := by
  induction n with
  | zero => exact ⟨rfl, rfl, rfl, rfl⟩
  | succ n ih =>
    obtain ⟨i1, i2, i3, i4⟩ := ih
    rw [runLoop_succ, step_running _ _ _ _ i2, tick_burst _ _ _ _ hm]
    obtain ⟨ws, b1, _, b3, _, _, b6, b7, b8⟩ := burstLoop_spec sink 10
      { runLoop sink rnd config (initialState p stats) n with
        ticks := (runLoop sink rnd config (initialState p stats) n).ticks + 1 }
    refine ⟨b7.trans i1, b8.trans i2, by rw [b6]; simp only [i3], ?_⟩
    rw [b3, framesWritten_append, framesWritten_tickEvents]
    simp only [List.length_append, List.length_map, b1]
    rw [i4]
    omega

/-- C16: in burst mode with `Continuous = false` and any `Count`, at every tick boundary
of a run the bounded-count tally is still 0 and the loop has not stopped: after `n` ticks
it has made exactly `10 * n` write attempts and waits for the next tick; and the run does
enter its loop whenever `createPacket` succeeds and the rate is between 1 and `10^9`. -/
theorem generateTraffic_burst_unbounded (sink : Sink) (rnd : RandSource)
    (config : PacketConfig) (stats : Statistics) (n : Nat)
    (hm : config.TrafficMode = "burst") (_hc : config.Continuous = false) :
    (∀ s, generateTraffic sink rnd config stats n = .loop s →
      s.count = 0 ∧ s.status = Status.running ∧ s.ticks = n ∧
      (framesWritten s.trace).length = 10 * n) ∧
    (∀ p, createPacket config = .packet p → 0 < config.Rate → config.Rate ≤ 1000000000 →
      ∃ s, generateTraffic sink rnd config stats n = .loop s ∧
        s.count = 0 ∧ s.status = Status.running ∧ s.ticks = n ∧
        (framesWritten s.trace).length = 10 * n) := by
  refine ⟨?_, ?_⟩
  · intro s hs
    obtain ⟨p, _, _, hrun⟩ := generateTraffic_loop_packet sink rnd config stats n s hs
    rw [hrun]
    exact burst_run sink rnd config p stats hm n
  · intro p hp hr0 hr1
    exact ⟨_, generateTraffic_enters sink rnd config stats n p hp hr0 hr1,
      burst_run sink rnd config p stats hm n⟩

/-- C16 witness: the example configuration (count 5) in burst mode after 7 ticks. -/
theorem generateTraffic_burst_unbounded_witness :
    ∃ s, generateTraffic flakySink (fun _ _ => 0) burstConfig Statistics.zero 7 = .loop s ∧
      s.count = 0 ∧ s.status = Status.running ∧ s.ticks = 7 ∧
      (framesWritten s.trace).length = 10 * 7 :=
  (generateTraffic_burst_unbounded flakySink (fun _ _ => 0) burstConfig Statistics.zero 7
    (by decide) (by decide)).2 examplePacket (by decide) (by decide) (by decide)

/-! ## Frame length and padding -/

/-- C18: every frame `createPacket` returns has at least 14 bytes (in fact at least 60), so
at every tick boundary of a run in any mode the built frame is still that frame, the slice
`randPacket[14:]` is within bounds, and the loop has not panicked: it waits for the next
tick or has stopped. -/
theorem createPacket_slice_in_bounds (config : PacketConfig) (p : List Nat)
    (hp : createPacket config = .packet p) :
    14 ≤ p.length ∧ 60 ≤ p.length ∧
    ∀ (sink : Sink) (rnd : RandSource) (stats : Statistics) (n : Nat) (s : LoopState),
      generateTraffic sink rnd config stats n = .loop s →
        s.packet = p ∧ 14 ≤ s.packet.length ∧
        (s.status = Status.running ∨ s.status = Status.stopped) ∧
        (step sink rnd config s).status ≠ Status.panicked Panic.sliceBounds := by
  have h60 := createPacket_length_ge config p hp
  refine ⟨by omega, h60, ?_⟩
  intro sink rnd stats n s hs
  have hrun := generateTraffic_loop sink rnd config stats n p s hp hs
  obtain ⟨r1, r2⟩ := run_any sink rnd config p stats (by omega) n
  obtain ⟨_, r4⟩ := run_any sink rnd config p stats (by omega) (n + 1)
  rw [runLoop_succ] at r4
  rw [← hrun] at r1 r2 r4
  refine ⟨r1, by rw [r1]; omega, r2, ?_⟩
  intro hpanic
  rcases r4 with h | h
  · rw [h] at hpanic; exact Status.noConfusion hpanic
  · rw [h] at hpanic; exact Status.noConfusion hpanic

/-- C18 witness: random mode with an empty payload and a VLAN tag, after 3 ticks. -/
theorem createPacket_slice_in_bounds_witness :
    ∃ p, createPacket emptyRandomConfig = .packet p ∧ 14 ≤ p.length ∧
      ((runLoop okSink (fun t i => t + i) emptyRandomConfig
          (initialState p Statistics.zero) 3).status = Status.running ∨
        (runLoop okSink (fun t i => t + i) emptyRandomConfig
          (initialState p Statistics.zero) 3).status = Status.stopped) :=
  ⟨exampleDst ++ exampleSrc ++ [0x81, 0, 0, 100, 8, 0] ++ List.replicate 42 0, by decide,
   (createPacket_slice_in_bounds emptyRandomConfig
      (exampleDst ++ exampleSrc ++ [0x81, 0, 0, 100, 8, 0] ++ List.replicate 42 0)
      (by decide)).1,
   ((createPacket_slice_in_bounds emptyRandomConfig
      (exampleDst ++ exampleSrc ++ [0x81, 0, 0, 100, 8, 0] ++ List.replicate 42 0)
      (by decide)).2.2 okSink (fun t i => t + i) Statistics.zero 3 _ (by decide)).2.2.1⟩

/-- C14 (as amended): an update never touches the counters of the other outcome, and each
counter it adds to is at least what it was whenever the `uint64` addition does not
overflow (`PacketsSent + 1`, `BytesSent + bytes`, `Errors + 1` below `2 ^ 64`); on
overflow the counter wraps to the sum modulo `2 ^ 64`. -/
theorem update_monotone_unless_overflow (s : Statistics) (bytes : Nat) (err : GoError) :
    (err ≠ none →
      (s.update bytes err).PacketsSent = s.PacketsSent ∧
      (s.update bytes err).BytesSent = s.BytesSent ∧
      (s.update bytes err).Errors = (s.Errors + 1) % 2 ^ 64 ∧
      (s.Errors + 1 < 2 ^ 64 → s.Errors ≤ (s.update bytes err).Errors)) ∧
    (err = none →
      (s.update bytes err).Errors = s.Errors ∧
      (s.update bytes err).PacketsSent = (s.PacketsSent + 1) % 2 ^ 64 ∧
      (s.update bytes err).BytesSent = (s.BytesSent + bytes) % 2 ^ 64 ∧
      (s.PacketsSent + 1 < 2 ^ 64 → s.PacketsSent ≤ (s.update bytes err).PacketsSent) ∧
      (s.BytesSent + bytes < 2 ^ 64 → s.BytesSent ≤ (s.update bytes err).BytesSent)) := by
  refine ⟨?_, ?_⟩
  · intro he
    obtain ⟨msg, hmsg⟩ := Option.ne_none_iff_exists'.mp he
    rw [hmsg, update_failed]
    refine ⟨rfl, rfl, rfl, ?_⟩
    intro hlt
    show s.Errors ≤ (s.Errors + 1) % 2 ^ 64
    rw [Nat.mod_eq_of_lt hlt]
    omega
  · intro he
    rw [he, update_ok]
    refine ⟨rfl, rfl, rfl, ?_, ?_⟩
    · intro hlt
      show s.PacketsSent ≤ (s.PacketsSent + 1) % 2 ^ 64
      rw [Nat.mod_eq_of_lt hlt]
      omega
    · intro hlt
      show s.BytesSent ≤ (s.BytesSent + bytes) % 2 ^ 64
      rw [Nat.mod_eq_of_lt hlt]
      omega

/-- C14 witness: a successful update of 60 bytes and a failed one on small counters. -/
theorem update_monotone_unless_overflow_witness :
    ((7 : Nat) ≤ (Statistics.update ⟨7, 420, 2⟩ 60 none).PacketsSent ∧
      (420 : Nat) ≤ (Statistics.update ⟨7, 420, 2⟩ 60 none).BytesSent) ∧
    (2 : Nat) ≤ (Statistics.update ⟨7, 420, 2⟩ 60 (some "down")).Errors :=
  ⟨⟨((update_monotone_unless_overflow ⟨7, 420, 2⟩ 60 none).2 rfl).2.2.2.1 (by decide),
    ((update_monotone_unless_overflow ⟨7, 420, 2⟩ 60 none).2 rfl).2.2.2.2 (by decide)⟩,
   ((update_monotone_unless_overflow ⟨7, 420, 2⟩ 60 (some "down")).1 (by decide)).2.2.2
     (by decide)⟩

/-- C14 counterexample: with `BytesSent = 2 ^ 64 - 1` a successful update of one byte
leaves `BytesSent` at 0. -/
theorem monotone_claim_fails :
    (Statistics.update ⟨0, 2 ^ 64 - 1, 0⟩ 1 none).BytesSent = 0 ∧
      ¬ monotoneClaim ⟨0, 2 ^ 64 - 1, 0⟩ 1 none := by
  have h0 : (Statistics.update ⟨0, 2 ^ 64 - 1, 0⟩ 1 none).BytesSent = 0 := by decide
  refine ⟨h0, ?_⟩
  intro h
  obtain ⟨_, h2, _⟩ := h ⟨by decide, by decide, by decide⟩ (by decide)
  rw [h0] at h2
  revert h2
  decide

/-! ## Modes outside the `switch` -/

/-- What one tick does to a waiting loop whose `err` is nil in a mode that is none of the
three. -/
theorem other_step (sink : Sink) (rnd : RandSource) (config : PacketConfig) (s : LoopState)
    (hm : otherMode config) (hr : s.status = Status.running) (he : s.err = none) :
    (step sink rnd config s).packet = s.packet ∧
    (step sink rnd config s).ticks = s.ticks + 1 ∧
    (step sink rnd config s).err = none ∧
    (step sink rnd config s).trace = s.trace ++ [Event.update s.packet.length none] ∧
    (step sink rnd config s).stats = s.stats.update s.packet.length none ∧
    (config.Continuous = false →
      (step sink rnd config s).count = s.count + 1 ∧
      (step sink rnd config s).status =
        if s.count + 1 ≥ config.Count then Status.stopped else Status.running) ∧
    (config.Continuous = true →
      (step sink rnd config s).count = s.count ∧
      (step sink rnd config s).status = Status.running) := by
  rw [step_running _ _ _ _ hr, tick_other _ _ _ _ hm]
  obtain ⟨a1, a2, a3, a4, a5⟩ := afterSwitch_fields config { s with ticks := s.ticks + 1 }
  refine ⟨a1, a2, a3.trans he, ?_, ?_, ?_, ?_⟩
  · rw [a4]
    show s.trace ++ [Event.update s.packet.length s.err] = _
    rw [he]
  · rw [a5]
    show s.stats.update s.packet.length s.err = _
    rw [he]
  · intro hc
    obtain ⟨c1, c2⟩ := afterSwitch_bounded config { s with ticks := s.ticks + 1 } hc
    refine ⟨c1, ?_⟩
    rw [c2]
    show (if s.count + 1 ≥ config.Count then Status.stopped else s.status) = _
    rw [hr]
  · intro hc
    obtain ⟨c1, c2⟩ := afterSwitch_continuous config { s with ticks := s.ticks + 1 } hc
    exact ⟨c1, c2.trans hr⟩

/-- A run in a mode that is none of the three writes nothing and makes one successful
update per tick. -/
theorem other_run (sink : Sink) (rnd : RandSource) (config : PacketConfig)
    (p : List Nat) (stats : Statistics) (hm : otherMode config) (n : Nat) :
    (runLoop sink rnd config (initialState p stats) n).packet = p ∧
    (runLoop sink rnd config (initialState p stats) n).err = none ∧
    framesWritten (runLoop sink rnd config (initialState p stats) n).trace = [] ∧
    (runLoop sink rnd config (initialState p stats) n).stats
      = stats.updates (List.replicate
          (runLoop sink rnd config (initialState p stats) n).ticks
          { bytes := p.length, err := none }) := by
  induction n with
  | zero => exact ⟨rfl, rfl, rfl, rfl⟩
  | succ n ih =>
    obtain ⟨i1, i2, i3, i4⟩ := ih
    rw [runLoop_succ]
    cases hst : (runLoop sink rnd config (initialState p stats) n).status with
    | stopped => rw [step_stopped _ _ _ _ hst]; exact ⟨i1, i2, i3, i4⟩
    | panicked q =>
      have hs : step sink rnd config (runLoop sink rnd config (initialState p stats) n)
          = runLoop sink rnd config (initialState p stats) n := by simp [step, hst]
      rw [hs]; exact ⟨i1, i2, i3, i4⟩
    | running =>
      obtain ⟨s1, s2, s3, s4, s5, _, _⟩ := other_step sink rnd config _ hm hst i2
      refine ⟨s1.trans i1, s3, ?_, ?_⟩
      · rw [s4, framesWritten_append, i3]
        rfl
      · rw [s5, s2, i4, i1, List.replicate_succ', updates_append]
        rfl

/-- The bounded loop in a mode that is none of the three after `n` ticks. -/
theorem other_bounded_run (sink : Sink) (rnd : RandSource) (config : PacketConfig)
    (p : List Nat) (stats : Statistics) (hm : otherMode config)
    (hc : config.Continuous = false) (hC : 1 ≤ config.Count) (n : Nat) :
    ((n : Int) < config.Count →
      (runLoop sink rnd config (initialState p stats) n).status = Status.running ∧
      (runLoop sink rnd config (initialState p stats) n).ticks = n ∧
      (runLoop sink rnd config (initialState p stats) n).count = n) ∧
    (config.Count ≤ (n : Int) →
      (runLoop sink rnd config (initialState p stats) n).status = Status.stopped ∧
      ((runLoop sink rnd config (initialState p stats) n).ticks : Int) = config.Count ∧
      (runLoop sink rnd config (initialState p stats) n).count = config.Count) := by
  induction n with
  | zero =>
    refine ⟨fun _ => ⟨rfl, rfl, rfl⟩, fun h => ?_⟩
    simp at h
    omega
  | succ n ih =>
    obtain ⟨irun, istop⟩ := ih
    obtain ⟨_, ie, _, _⟩ := other_run sink rnd config p stats hm n
    simp only [runLoop_succ]
    by_cases hn : (n : Int) < config.Count
    · obtain ⟨r1, r2, r3⟩ := irun hn
      obtain ⟨_, s2, _, _, _, s6, _⟩ := other_step sink rnd config _ hm r1 ie
      obtain ⟨c1, c2⟩ := s6 hc
      refine ⟨?_, ?_⟩
      · intro hlt
        refine ⟨?_, by rw [s2, r2], by rw [c1, r3]; push_cast; rfl⟩
        rw [c2, r3, if_neg]
        push_cast at hlt
        omega
      · intro hge
        push_cast at hge
        have heq : config.Count = (n : Int) + 1 := by omega
        refine ⟨?_, ?_, ?_⟩
        · rw [c2, r3, if_pos]
          omega
        · rw [s2, r2, heq]; push_cast; rfl
        · rw [c1, r3, heq]
    · have hge : config.Count ≤ (n : Int) := by omega
      obtain ⟨t1, t2, t3⟩ := istop hge
      rw [step_stopped _ _ _ _ t1]
      refine ⟨?_, fun _ => ⟨t1, t2, t3⟩⟩
      intro hlt
      push_cast at hlt
      omega

theorem okCalls_replicate (k len : Nat) :
    okCalls (List.replicate k ({ bytes := len, err := none } : UpdateCall)) = k ∧
    failedCalls (List.replicate k ({ bytes := len, err := none } : UpdateCall)) = 0 := by
  induction k with
  | zero => exact ⟨rfl, rfl⟩
  | succ k ih =>
    obtain ⟨i1, i2⟩ := ih
    simp only [okCalls, failedCalls, List.replicate_succ, List.countP_cons] at i1 i2 ⊢
    simp [i1, i2]

/-- C20 (as amended): for every mode string other than `sequential`, `random` and `burst`,
a tick of a run (whose `err` is still nil) performs no write to the sink and records one
successful update: `PacketsSent` and `BytesSent` become `PacketsSent + 1` and `BytesSent`
plus the length of the built frame modulo `2 ^ 64` (exactly these sums when they are below
`2 ^ 64`), `Errors` is unchanged, and the tick counts toward the stop condition; a bounded
run (`1 <= Count < 2 ^ 63`) that starts from zeroed counters ends after `Count` ticks with
`PacketsSent = Count`, `Errors = 0` and no frame written. -/
theorem other_mode_ticks (sink : Sink) (rnd : RandSource) (config : PacketConfig)
    (hm : otherMode config) :
    (∀ s : LoopState, s.status = Status.running → s.err = none →
      (tick sink rnd config s).trace = s.trace ++ [Event.update s.packet.length none] ∧
      framesWritten (tick sink rnd config s).trace = framesWritten s.trace ∧
      (tick sink rnd config s).err = none ∧
      (tick sink rnd config s).stats.PacketsSent = (s.stats.PacketsSent + 1) % 2 ^ 64 ∧
      (tick sink rnd config s).stats.BytesSent
        = (s.stats.BytesSent + s.packet.length) % 2 ^ 64 ∧
      (tick sink rnd config s).stats.Errors = s.stats.Errors ∧
      (s.stats.PacketsSent + 1 < 2 ^ 64 →
        (tick sink rnd config s).stats.PacketsSent = s.stats.PacketsSent + 1) ∧
      (s.stats.BytesSent + s.packet.length < 2 ^ 64 →
        (tick sink rnd config s).stats.BytesSent = s.stats.BytesSent + s.packet.length) ∧
      (config.Continuous = false →
        (tick sink rnd config s).count = s.count + 1 ∧
        (tick sink rnd config s).status =
          if s.count + 1 ≥ config.Count then Status.stopped else Status.running)) ∧
    (∀ (p : List Nat) (n : Nat), createPacket config = .packet p →
      config.Continuous = false → 1 ≤ config.Count → config.Count < 2 ^ 63 →
      0 < config.Rate → config.Rate ≤ 1000000000 → config.Count ≤ (n : Int) →
      ∃ s, generateTraffic sink rnd config Statistics.zero n = .loop s ∧
        s.status = Status.stopped ∧ (s.ticks : Int) = config.Count ∧
        framesWritten s.trace = [] ∧
        (s.stats.PacketsSent : Int) = config.Count ∧ s.stats.Errors = 0) := by
  refine ⟨?_, ?_⟩
  · intro s hr he
    obtain ⟨_, _, s3, s4, s5, s6, _⟩ := other_step sink rnd config s hm hr he
    rw [step_running _ _ _ _ hr] at s3 s4 s5 s6
    have hP : (tick sink rnd config s).stats.PacketsSent = (s.stats.PacketsSent + 1) % 2 ^ 64 := by
      rw [s5, update_ok]
    have hB : (tick sink rnd config s).stats.BytesSent
        = (s.stats.BytesSent + s.packet.length) % 2 ^ 64 := by
      rw [s5, update_ok]
    refine ⟨s4, ?_, s3, hP, hB, by rw [s5, update_ok], ?_, ?_, s6⟩
    · rw [s4, framesWritten_append]
      simp [framesWritten]
    · intro hlt
      rw [hP, Nat.mod_eq_of_lt hlt]
    · intro hlt
      rw [hB, Nat.mod_eq_of_lt hlt]
  · intro p n hp hc hC hC63 hr0 hr1 hn
    obtain ⟨_, _, o3, o4⟩ := other_run sink rnd config p Statistics.zero hm n
    obtain ⟨_, b2⟩ := other_bounded_run sink rnd config p Statistics.zero hm hc hC n
    obtain ⟨t1, t2, _⟩ := b2 hn
    obtain ⟨k1, _, k3⟩ := updates_closed_form
      (List.replicate (runLoop sink rnd config (initialState p Statistics.zero) n).ticks
        ({ bytes := p.length, err := none } : UpdateCall)) Statistics.zero
    obtain ⟨r1, _, r3⟩ := updates_inRange
      (List.replicate (runLoop sink rnd config (initialState p Statistics.zero) n).ticks
        ({ bytes := p.length, err := none } : UpdateCall)) Statistics.zero zero_inRange
    rw [Nat.mod_eq_of_lt r1, (okCalls_replicate _ _).1] at k1
    rw [Nat.mod_eq_of_lt r3, (okCalls_replicate _ _).2] at k3
    rw [← o4] at k1 k3
    have e1 : (runLoop sink rnd config (initialState p Statistics.zero) n).stats.PacketsSent
        = (0 + (runLoop sink rnd config (initialState p Statistics.zero) n).ticks) % 2 ^ 64 :=
      k1
    have e3 : (runLoop sink rnd config (initialState p Statistics.zero) n).stats.Errors
        = (0 + 0) % 2 ^ 64 := k3
    rw [Nat.zero_add] at e1
    refine ⟨_, generateTraffic_enters sink rnd config Statistics.zero n p hp hr0 hr1,
      t1, t2, o3, ?_, ?_⟩
    · rw [e1, Nat.mod_eq_of_lt (by omega)]
      exact t2
    · rw [e3]
      rfl

/-- C20 witness: the example configuration (count 5) with mode `flood` after 6 ticks. -/
theorem other_mode_ticks_witness :
    ∃ s, generateTraffic failingSink (fun _ _ => 0) floodConfig Statistics.zero 6 = .loop s ∧
      s.status = Status.stopped ∧ (s.ticks : Int) = floodConfig.Count ∧
      framesWritten s.trace = [] ∧
      (s.stats.PacketsSent : Int) = floodConfig.Count ∧ s.stats.Errors = 0 :=
  (other_mode_ticks failingSink (fun _ _ => 0) floodConfig
    ⟨by decide, by decide, by decide⟩).2 examplePacket 6 (by decide) (by decide) (by decide)
    (by decide) (by decide) (by decide) (by decide)

/-- C20 counterexample: in mode `flood` a tick on counters with `PacketsSent = 2 ^ 64 - 1`
leaves `PacketsSent` at 0. -/
theorem other_tick_claim_fails :
    (tick okSink (fun _ _ => 0) floodConfig saturatedPackets).stats.PacketsSent = 0 ∧
      ¬ otherTickClaim okSink (fun _ _ => 0) floodConfig saturatedPackets := by
  have h0 : (tick okSink (fun _ _ => 0) floodConfig saturatedPackets).stats.PacketsSent = 0 := by
    decide
  refine ⟨h0, ?_⟩
  intro h
  obtain ⟨_, e, _⟩ := h ⟨by decide, by decide, by decide⟩ (by decide) (by decide)
  rw [h0] at e
  revert e
  decide

/-! ## Random mode on tagged frames -/

/-- C17: in random mode the bytes of the written frame from offset 14 on are those of the
random source, so on a VLAN-tagged frame the tag in bytes 14-17 is overwritten: for the
example configuration with VLAN identifier 100 the built frame has the tag `00 64 08 00`,
and with a random source that yields `0xFF` the frame written by the first tick has
`ff ff ff ff` there. -/
theorem random_overwrites_tag :
    (∀ (rnd : RandSource) (config : PacketConfig) (s : LoopState),
      config.TrafficMode = "random" → 14 ≤ s.packet.length →
      (frameOfTick rnd config s).drop 14
        = (List.range (s.packet.length - 14)).map (fun i => rnd s.ticks i % 256)) ∧
    createPacket vlanRandomConfig = .packet vlanPacket ∧
    (vlanPacket.drop 14).take 4 = [0, 100, 8, 0] ∧
    (framesWritten (runLoop okSink (fun _ _ => 255) vlanRandomConfig
      (initialState vlanPacket Statistics.zero) 1).trace).map
        (fun f => (f.drop 14).take 4) = [[255, 255, 255, 255]] := by
  refine ⟨?_, by decide, by decide, by decide⟩
  intro rnd config s hm hlen
  unfold frameOfTick
  simp only [hm, if_true]
  have h14 : (List.take 14 s.packet).length = 14 := by
    rw [List.length_take]
    omega
  exact List.drop_left' h14

/-! ## The mutex of `Statistics` -/

/-- The statements of `update`, run by one goroutine, are the method `update`. -/
theorem execSeq_updateOps (bytes : Nat) (err : GoError) (s : Statistics) :
    execSeq (updateOps bytes err) s = s.update bytes err := by
  cases err with
  | none => simp [execSeq, updateOps, Op.apply, Statistics.update]
  | some msg => simp [execSeq, updateOps, Op.apply, Statistics.update]

/-- C15: `update` touches the counters only between `Lock` and `Unlock`, but `display`
reads `PacketsSent`, `BytesSent` and `Errors` without taking the mutex. With the schedule
in which the reporter runs `display` while the updater is between `PacketsSent++` and
`BytesSent += 60` of `update(60, nil)`, `display` reads `PacketsSent = 1` and
`BytesSent = 0`, a pair that is neither the counters before the update nor after it. -/
theorem display_reads_without_mutex :
    (∀ bytes err, lockedThroughout false (updateOps bytes err) = true) ∧
    lockedThroughout false displayOps = false ∧
    (racingWorld.run racingSchedule).reporter.seen = [1, 0, 1, 0] ∧
    (racingWorld.run racingSchedule).stats = Statistics.zero.update 60 none ∧
    ((1 : Nat), (0 : Nat)) ≠ (Statistics.zero.PacketsSent, Statistics.zero.BytesSent) ∧
    ((1 : Nat), (0 : Nat)) ≠ ((Statistics.zero.update 60 none).PacketsSent,
      (Statistics.zero.update 60 none).BytesSent) := by
  refine ⟨?_, by decide, by decide, by decide, by decide, by decide⟩
  intro bytes err
  cases err with
  | none => simp [updateOps, lockedThroughout]
  | some msg => simp [updateOps, lockedThroughout]


end PacketGen
